import Mathlib

/-!
# Verification of the AV1 frame-decode core (`av1/decoder/decodeframe.c`)

A shallow embedding of the control structure of `decodeframe.c` together with
proofs of the behavioural properties stated in the specification.  Pure C
functions become Lean functions; the bit reader (an external collaborator in
the spec) is embedded as an oracle stream of values, one value per read call,
so quantifying over all streams quantifies over all bitstreams; fallible code
returns `Except`.
-/

namespace Aom

/-- Error severities of `aom_internal_error` as used in `decodeframe.c`
(`AOM_CODEC_CORRUPT_FRAME`, `AOM_CODEC_UNSUP_BITSTREAM`, `AOM_CODEC_MEM_ERROR`). -/
inductive AomCodecErr where
  | CORRUPT_FRAME
  | UNSUP_BITSTREAM
  | MEM_ERROR
deriving DecidableEq, Repr

/-- One `aom_internal_error` event: the severity code and the message string. -/
structure DecErr where
  code : AomCodecErr
  msg : String
deriving DecidableEq, Repr

/-- The uncompressed-header bit reader (`struct aom_read_bit_buffer`), embedded
as an oracle: `vals` is the stream of values returned by successive read calls.
Each `aom_rb_read_literal` call consumes one stream element and truncates it to
the requested width, so ranging over all streams ranges over all bitstreams. -/
structure ReadBitBuffer where
  vals : List Nat
deriving DecidableEq, Repr

/-- `aom_rb_read_literal(rb, n)`: an n-bit literal from the oracle stream. -/
def aom_rb_read_literal (rb : ReadBitBuffer) (n : Nat) : Nat × ReadBitBuffer :=
  (rb.vals.headD 0 % 2 ^ n, ⟨rb.vals.tail⟩)

/-- `aom_rb_read_bit(rb)`: a single bit. -/
def aom_rb_read_bit (rb : ReadBitBuffer) : Nat × ReadBitBuffer :=
  aom_rb_read_literal rb 1

/-- `aom_rb_read_inv_signed_literal(rb, n)`: reads `n+1` bits and sign-extends
(two's complement). -/
def aom_rb_read_inv_signed_literal (rb : ReadBitBuffer) (n : Nat) :
    Int × ReadBitBuffer :=
  let (v, rb) := aom_rb_read_literal rb (n + 1)
  (if v < 2 ^ n then (v : Int) else (v : Int) - 2 ^ (n + 1), rb)

theorem aom_rb_read_literal_lt (rb : ReadBitBuffer) (n : Nat) :
    (aom_rb_read_literal rb n).1 < 2 ^ n :=
  Nat.mod_lt _ (Nat.pos_pow_of_pos n (by decide))

/-- Interprets a read value as a 3-bit reference-slot index. -/
def slotOf (v : Nat) : Fin 8 :=
  ⟨v % 8, Nat.mod_lt _ (by decide)⟩

/-! ## Reference-frame selection (C1)

Embeds the reference-selection section of `read_uncompressed_header`
(decodeframe.c lines 2739-2809): short signaling of last/golden with its
unpopulated-slot checks, and the explicit per-reference loop with its
unpopulated-slot check and optional frame-id validation. -/

/-- One resolved inter reference (`RefBuffer`): physical buffer index `idx`
(`-1` = invalid) and the reference slot `map_idx` it was resolved from. -/
structure RefEntry where
  idx : Int
  map_idx : Fin 8
deriving DecidableEq, Repr

/-- The header state consulted by the reference-selection section. -/
structure RefSigState where
  /-- `cm->ref_frame_map`: slot to buffer index; `-1` = never populated. -/
  ref_frame_map : Fin 8 → Int
  /-- `seq_params.enable_order_hint`. -/
  enable_order_hint : Bool
  /-- `seq_params.frame_id_numbers_present_flag`. -/
  frame_id_numbers_present_flag : Bool
  /-- `seq_params.frame_id_length`. -/
  frame_id_length : Nat
  /-- `seq_params.delta_frame_id_length`. -/
  delta_frame_id_length : Nat
  /-- `cm->current_frame_id`. -/
  current_frame_id : Nat
  /-- `cm->ref_frame_id`. -/
  ref_frame_id : Fin 8 → Int
  /-- `cm->valid_for_referencing`. -/
  valid_for_referencing : Fin 8 → Bool

/-- The error raised at decodeframe.c:2758-2763 and 2780-2782. -/
def nonexistentRefErr : DecErr :=
  ⟨.CORRUPT_FRAME, "Inter frame requests nonexistent reference"⟩

/-- The error raised at decodeframe.c:2804-2807. -/
def refIdMismatchErr : DecErr :=
  ⟨.CORRUPT_FRAME, "Reference buffer frame ID mismatch"⟩

/-- One iteration of the per-reference loop (decodeframe.c:2768-2809): in
explicit mode read a 3-bit slot index, fail on an unpopulated slot, and record
the resolved entry; in short-signaling mode take the entry derived earlier by
`av1_set_frame_refs` (abstracted as `shortRefs`).  Then, when frame-id
numbers are present, read the delta and validate the reference frame id. -/
def read_one_ref (st : RefSigState) (shortSig : Bool) (shortRefs : Fin 7 → RefEntry)
    (i : Fin 7) (rb : ReadBitBuffer) : Except DecErr (RefEntry × ReadBitBuffer) := do
  let (entry, rb) ←
    if shortSig then
      pure (shortRefs i, rb)
    else
      let (r, rb) := aom_rb_read_literal rb 3
      let ref : Fin 8 := slotOf r
      let idx := st.ref_frame_map ref
      if idx = -1 then throw nonexistentRefErr
      else pure ((⟨idx, ref⟩ : RefEntry), rb)
  if st.frame_id_numbers_present_flag then
    let (delta_minus1, rb) := aom_rb_read_literal rb st.delta_frame_id_length
    let expected : Int :=
      ((st.current_frame_id : Int) - (delta_minus1 + 1) + 2 ^ st.frame_id_length)
        % 2 ^ st.frame_id_length
    if expected ≠ st.ref_frame_id entry.map_idx ∨
        st.valid_for_referencing entry.map_idx = false then
      throw refIdMismatchErr
    else
      pure (entry, rb)
  else
    pure (entry, rb)

/-- The per-reference loop over the given iteration indices. -/
def read_refs_loop (st : RefSigState) (shortSig : Bool) (shortRefs : Fin 7 → RefEntry) :
    List (Fin 7) → ReadBitBuffer → Except DecErr (List RefEntry × ReadBitBuffer)
  | [], rb => pure ([], rb)
  | i :: rest, rb => do
    let (e, rb) ← read_one_ref st shortSig shortRefs i rb
    let (es, rb) ← read_refs_loop st shortSig shortRefs rest rb
    pure (e :: es, rb)

/-- The reference-selection section of `read_uncompressed_header`
(decodeframe.c:2739-2809).  `setFrameRefs` abstracts `av1_set_frame_refs`
(an external collaborator living outside this file): given the signaled
last/golden slots it derives the seven reference entries used by short
signaling.  Returns the short-signaling flag, the seven resolved references,
and the advanced reader. -/
def read_inter_frame_refs (st : RefSigState)
    (setFrameRefs : Fin 8 → Fin 8 → Fin 7 → RefEntry) (rb : ReadBitBuffer) :
    Except DecErr (Bool × List RefEntry × ReadBitBuffer) := do
  let (shortBit, rb) :=
    if st.enable_order_hint then
      let p := aom_rb_read_bit rb
      ((p.1 == 1 : Bool), p.2)
    else (false, rb)
  if shortBit then
    let (lst, rb) := aom_rb_read_literal rb 3
    let lst_ref : Fin 8 := slotOf lst
    let (gld, rb) := aom_rb_read_literal rb 3
    let gld_ref : Fin 8 := slotOf gld
    if st.ref_frame_map lst_ref = -1 then throw nonexistentRefErr
    else if st.ref_frame_map gld_ref = -1 then throw nonexistentRefErr
    else
      let refs := setFrameRefs lst_ref gld_ref
      let (es, rb) ← read_refs_loop st true refs (List.finRange 7) rb
      pure (true, es, rb)
  else
    let (es, rb) ← read_refs_loop st false (fun _ => ⟨0, 0⟩) (List.finRange 7) rb
    pure (false, es, rb)

/-! ## Lossless-frame handling (C2)

Embeds decodeframe.c lines 2975-3011 (per-segment lossless flags,
`coded_lossless`/`all_lossless`, forced filter parameters) together with
`setup_loopfilter` (1095-1144), `setup_cdef` (1146-1157),
`decode_restoration_mode` (900-954), `read_tx_mode` (125-128) and
`read_tx_size` (609-626). -/

/-- Transform-mode enum (subset used by `decodeframe.c`). -/
inductive TX_MODE where
  | ONLY_4X4
  | TX_MODE_LARGEST
  | TX_MODE_SELECT
deriving DecidableEq, Repr

/-- Transform sizes, by their enum value; `TX_4X4 = 0` is the smallest. -/
abbrev TX_SIZE := Nat

/-- The smallest transform size. -/
def TX_4X4 : TX_SIZE := 0

/-- Block sizes by their enum value: `BLOCK_4X4 = 0`, `BLOCK_4X8 = 1`,
`BLOCK_8X4 = 2`, `BLOCK_8X8 = 3`, larger sizes above. -/
abbrev BLOCK_SIZE := Nat

/-- 4x4 block size enum value. -/
def BLOCK_4X4 : BLOCK_SIZE := 0

/-- 8x8 block size enum value. -/
def BLOCK_8X8 : BLOCK_SIZE := 3

/-- Per-segment lossless flag (decodeframe.c:2975-2982): a segment is lossless
when its effective quantizer index is zero and all six frame-level delta-q
values are zero.  `qindex` abstracts `av1_get_qindex(&cm->seg, i, base_qindex)`
(an av1/common helper external to this file). -/
def xd_lossless (qindex : Fin 8 → Nat) (y_dc_delta_q u_dc_delta_q u_ac_delta_q
    v_dc_delta_q v_ac_delta_q : Int) (i : Fin 8) : Bool :=
  qindex i == 0 && y_dc_delta_q == 0 && u_dc_delta_q == 0 && u_ac_delta_q == 0 &&
    v_dc_delta_q == 0 && v_ac_delta_q == 0

/-- Modelled from the spec: `is_coded_lossless` is an av1/common helper whose
body is not part of this repository snapshot.  Per the spec, the frame is
coded-lossless exactly when every (active) segment is lossless: with
segmentation enabled all `MAX_SEGMENTS` flags must hold, otherwise segment 0
decides. -/
def is_coded_lossless (seg_enabled : Bool) (lossless : Fin 8 → Bool) : Bool :=
  if seg_enabled then (List.finRange 8).all lossless else lossless 0

/-- Tracked fields of `struct loopfilter` as touched by `setup_loopfilter`. -/
structure LoopFilterParams where
  filter_level0 : Nat
  filter_level1 : Nat
  filter_level_u : Nat
  filter_level_v : Nat
  sharpness_level : Nat
  mode_ref_delta_enabled : Bool
  mode_ref_delta_update : Bool
  ref_deltas : Fin 8 → Int
  mode_deltas : Fin 2 → Int

/-- The conditional delta-update read loops of `setup_loopfilter`
(decodeframe.c:1131-1137): per entry, a flag bit and, when set, a 6-bit
inverse-signed literal. -/
def read_lf_delta_loop {n : Nat} :
    List (Fin n) → (Fin n → Int) → ReadBitBuffer → (Fin n → Int) × ReadBitBuffer
  | [], d, rb => (d, rb)
  | i :: rest, d, rb =>
    let (b, rb) := aom_rb_read_bit rb
    if b = 1 then
      let (v, rb) := aom_rb_read_inv_signed_literal rb 6
      read_lf_delta_loop rest (Function.update d i v) rb
    else
      read_lf_delta_loop rest d rb

/-- `setup_loopfilter` (decodeframe.c:1095-1144).  Returns unchanged without
reading anything when intra-block-copy filtering is disabled or the frame is
coded-lossless.  `default_ref_deltas`/`default_mode_deltas` abstract
`av1_set_default_ref_deltas`/`av1_set_default_mode_deltas` (external);
`prev_frame_deltas` is `cm->prev_frame`'s saved deltas when a previous frame
exists. -/
def setup_loopfilter (num_planes : Nat)
    (allow_intrabc no_filter_for_ibc coded_lossless : Bool)
    (prev_frame_deltas : Option ((Fin 8 → Int) × (Fin 2 → Int)))
    (default_ref_deltas : Fin 8 → Int) (default_mode_deltas : Fin 2 → Int)
    (lf : LoopFilterParams) (rb : ReadBitBuffer) : LoopFilterParams × ReadBitBuffer :=
  if (allow_intrabc && no_filter_for_ibc) || coded_lossless then (lf, rb)
  else
    let (rd, md) :=
      match prev_frame_deltas with
      | some p => p
      | none => (default_ref_deltas, default_mode_deltas)
    let lf := { lf with ref_deltas := rd, mode_deltas := md }
    let (l0, rb) := aom_rb_read_literal rb 6
    let (l1, rb) := aom_rb_read_literal rb 6
    let (lu, lv, rb) :=
      if 1 < num_planes ∧ (l0 ≠ 0 ∨ l1 ≠ 0) then
        let (u, rb) := aom_rb_read_literal rb 6
        let (v, rb) := aom_rb_read_literal rb 6
        (u, v, rb)
      else (lf.filter_level_u, lf.filter_level_v, rb)
    let (sharp, rb) := aom_rb_read_literal rb 3
    let (mrde, rb) := aom_rb_read_bit rb
    let (mrdu, rd, md, rb) :=
      if mrde = 1 then
        let (u, rb) := aom_rb_read_bit rb
        if u = 1 then
          let (rd, rb) := read_lf_delta_loop (List.finRange 8) lf.ref_deltas rb
          let (md, rb) := read_lf_delta_loop (List.finRange 2) lf.mode_deltas rb
          (true, rd, md, rb)
        else (false, lf.ref_deltas, lf.mode_deltas, rb)
      else (false, lf.ref_deltas, lf.mode_deltas, rb)
    ({ filter_level0 := l0, filter_level1 := l1, filter_level_u := lu,
       filter_level_v := lv, sharpness_level := sharp,
       mode_ref_delta_enabled := mrde == 1, mode_ref_delta_update := mrdu,
       ref_deltas := rd, mode_deltas := md }, rb)

/-- Tracked fields of CDEF frame parameters as touched by `decodeframe.c`. -/
structure CdefParams where
  cdef_pri_damping : Nat
  cdef_sec_damping : Nat
  cdef_bits : Nat
  nb_cdef_strengths : Nat
  cdef_strengths : Nat → Nat
  cdef_uv_strengths : Nat → Nat

/-- The strength-reading loop of `setup_cdef` (decodeframe.c:1152-1156). -/
def read_cdef_strengths_loop (cdef_strength_bits num_planes : Nat) :
    List Nat → (Nat → Nat) → (Nat → Nat) → ReadBitBuffer →
      (Nat → Nat) × (Nat → Nat) × ReadBitBuffer
  | [], s, u, rb => (s, u, rb)
  | i :: rest, s, u, rb =>
    let (v, rb) := aom_rb_read_literal rb cdef_strength_bits
    let s := Function.update s i v
    let (uv, rb) :=
      if 1 < num_planes then aom_rb_read_literal rb cdef_strength_bits else (0, rb)
    let u := Function.update u i uv
    read_cdef_strengths_loop cdef_strength_bits num_planes rest s u rb

/-- `setup_cdef` (decodeframe.c:1146-1157).  `cdef_strength_bits` abstracts the
external `CDEF_STRENGTH_BITS` constant. -/
def setup_cdef (num_planes cdef_strength_bits : Nat)
    (allow_intrabc no_filter_for_ibc : Bool) (c : CdefParams) (rb : ReadBitBuffer) :
    CdefParams × ReadBitBuffer :=
  if allow_intrabc && no_filter_for_ibc then (c, rb)
  else
    let (d, rb) := aom_rb_read_literal rb 2
    let (bits, rb) := aom_rb_read_literal rb 2
    let nb := 2 ^ bits
    let (s, u, rb) := read_cdef_strengths_loop cdef_strength_bits num_planes
      (List.range nb) c.cdef_strengths c.cdef_uv_strengths rb
    ({ cdef_pri_damping := d + 3, cdef_sec_damping := d + 3, cdef_bits := bits,
       nb_cdef_strengths := nb, cdef_strengths := s, cdef_uv_strengths := u }, rb)

/-- Loop-restoration filter kinds. -/
inductive RestorationType where
  | RESTORE_NONE
  | RESTORE_WIENER
  | RESTORE_SGRPROJ
  | RESTORE_SWITCHABLE
deriving DecidableEq, Repr

/-- Tracked fields of `RestorationInfo`. -/
structure RestorationInfo where
  frame_restoration_type : RestorationType
  restoration_unit_size : Nat
deriving DecidableEq, Repr

/-- External constant `RESTORATION_UNITSIZE_MAX` (av1/common/restoration.h). -/
def RESTORATION_UNITSIZE_MAX : Nat := 256

/-- The two-bit restoration-type read of `decode_restoration_mode`
(decodeframe.c:908-914). -/
def read_restoration_type (rb : ReadBitBuffer) : RestorationType × ReadBitBuffer :=
  let (b1, rb) := aom_rb_read_bit rb
  if b1 == 1 then
    let (b2, rb) := aom_rb_read_bit rb
    (if b2 == 1 then .RESTORE_SGRPROJ else .RESTORE_WIENER, rb)
  else
    let (b2, rb) := aom_rb_read_bit rb
    (if b2 == 1 then .RESTORE_SWITCHABLE else .RESTORE_NONE, rb)

/-- The per-plane type-reading loop of `decode_restoration_mode`
(decodeframe.c:906-919), threading the `all_none`/`chroma_none` accumulators. -/
def read_rst_types_loop :
    List (Fin 3) → (Fin 3 → RestorationInfo) → Bool → Bool → ReadBitBuffer →
      (Fin 3 → RestorationInfo) × Bool × Bool × ReadBitBuffer
  | [], rst, an, cn, rb => (rst, an, cn, rb)
  | p :: rest, rst, an, cn, rb =>
    let (t, rb) := read_restoration_type rb
    let an := an && (t == .RESTORE_NONE)
    let cn := cn && (t == .RESTORE_NONE || p == 0)
    read_rst_types_loop rest
      (Function.update rst p { rst p with frame_restoration_type := t }) an cn rb

/-- Sets the restoration unit size of every listed plane
(decodeframe.c:925-926 and 938-939). -/
def set_unit_sizes (planes : List (Fin 3)) (size : Nat)
    (rst : Fin 3 → RestorationInfo) : Fin 3 → RestorationInfo :=
  planes.foldl
    (fun acc p => Function.update acc p { acc p with restoration_unit_size := size }) rst

/-- `decode_restoration_mode` (decodeframe.c:900-954). -/
def decode_restoration_mode (num_planes : Nat)
    (allow_intrabc no_filter_for_ibc sb128 : Bool)
    (subsampling_x subsampling_y : Nat) (rst : Fin 3 → RestorationInfo)
    (rb : ReadBitBuffer) : (Fin 3 → RestorationInfo) × ReadBitBuffer :=
  if allow_intrabc && no_filter_for_ibc then (rst, rb)
  else
    let planes := (List.finRange 3).take num_planes
    let (rst, all_none, chroma_none, rb) := read_rst_types_loop planes rst true true rb
    let (rst, rb) :=
      if !all_none then
        let sb_size := if sb128 then 128 else 64
        let rst := set_unit_sizes planes sb_size rst
        let (u0, rb) :=
          if sb_size == 64 then
            let (b, rb) := aom_rb_read_bit rb
            ((rst 0).restoration_unit_size <<< b, rb)
          else ((rst 0).restoration_unit_size, rb)
        let (u0, rb) :=
          if 64 < u0 then
            let (b, rb) := aom_rb_read_bit rb
            (u0 <<< b, rb)
          else (u0, rb)
        (Function.update rst 0 { rst 0 with restoration_unit_size := u0 }, rb)
      else
        (set_unit_sizes planes RESTORATION_UNITSIZE_MAX rst, rb)
    if 1 < num_planes then
      let s := min subsampling_x subsampling_y
      let (u1, rb) :=
        if s ≠ 0 ∧ chroma_none = false then
          let (b, rb) := aom_rb_read_bit rb
          ((rst 0).restoration_unit_size >>> (b * s), rb)
        else ((rst 0).restoration_unit_size, rb)
      let rst := Function.update rst 1 { rst 1 with restoration_unit_size := u1 }
      let rst := Function.update rst 2 { rst 2 with restoration_unit_size := u1 }
      (rst, rb)
    else (rst, rb)

/-- `read_tx_mode` (decodeframe.c:125-128): a coded-lossless frame forces
`ONLY_4X4` without reading. -/
def read_tx_mode (coded_lossless : Bool) (rb : ReadBitBuffer) :
    TX_MODE × ReadBitBuffer :=
  if coded_lossless then (.ONLY_4X4, rb)
  else
    let (b, rb) := aom_rb_read_bit rb
    (if b == 1 then .TX_MODE_SELECT else .TX_MODE_LARGEST, rb)

/-- The entropy decoder's reader (`aom_reader`), embedded as an oracle. -/
structure AomReader where
  vals : List Nat
deriving DecidableEq, Repr

/-- `read_tx_size` (decodeframe.c:609-626): a lossless segment forces `TX_4X4`
without reading.  `block_signals_txsize`, `tx_size_from_tx_mode` and
`get_max_rect_tx_size` abstract the external block-size lookup tables;
`read_selected_tx_size` abstracts the symbol-reading path of lines 616-618. -/
def read_tx_size (lossless : Fin 8 → Bool) (segment_id : Fin 8) (tx_mode : TX_MODE)
    (block_signals_txsize : Bool)
    (read_selected_tx_size : AomReader → TX_SIZE × AomReader)
    (tx_size_from_tx_mode get_max_rect_tx_size : TX_SIZE)
    (is_inter allow_select_inter : Bool) (r : AomReader) : TX_SIZE × AomReader :=
  if lossless segment_id then (TX_4X4, r)
  else if block_signals_txsize then
    if (!is_inter || allow_select_inter) && (tx_mode == .TX_MODE_SELECT) then
      read_selected_tx_size r
    else (tx_size_from_tx_mode, r)
  else (get_max_rect_tx_size, r)

/-- The guard of the variable-transform-size path in `decode_block`
(decodeframe.c:644-645): only `TX_MODE_SELECT` inter blocks that signal their
transform size, are not skipped, and are not lossless use `read_tx_size_vartx`. -/
def decode_block_uses_vartx (tx_mode : TX_MODE)
    (block_signals_txsize skip inter_block_tx lossless_seg : Bool) : Bool :=
  (tx_mode == .TX_MODE_SELECT) && block_signals_txsize && !skip &&
    inter_block_tx && !lossless_seg

/-- Inputs of the lossless/filter tail of `read_uncompressed_header`. -/
structure LosslessCtx where
  seg_enabled : Bool
  qindex : Fin 8 → Nat
  y_dc_delta_q : Int
  u_dc_delta_q : Int
  u_ac_delta_q : Int
  v_dc_delta_q : Int
  v_ac_delta_q : Int
  superres_unscaled : Bool
  enable_cdef : Bool
  enable_restoration : Bool
  allow_intrabc : Bool
  no_filter_for_ibc : Bool
  num_planes : Nat
  sb128 : Bool
  subsampling_x : Nat
  subsampling_y : Nat
  cdef_strength_bits : Nat
  prev_frame_deltas : Option ((Fin 8 → Int) × (Fin 2 → Int))
  default_ref_deltas : Fin 8 → Int
  default_mode_deltas : Fin 2 → Int

/-- Result of the lossless/filter tail of `read_uncompressed_header`. -/
structure LosslessTailResult where
  lossless : Fin 8 → Bool
  coded_lossless : Bool
  all_lossless : Bool
  lf : LoopFilterParams
  cdef : CdefParams
  rst : Fin 3 → RestorationInfo
  tx_mode : TX_MODE

/-- The lossless/filter tail of `read_uncompressed_header`
(decodeframe.c:2975-3011): computes the per-segment lossless flags,
`coded_lossless` and `all_lossless`, forces the deblocking levels, CDEF fields
and restoration types under the lossless conditions, then runs
`setup_loopfilter`, conditionally `setup_cdef` and `decode_restoration_mode`,
and finally `read_tx_mode`. -/
def header_lossless_tail (c : LosslessCtx) (lf : LoopFilterParams)
    (cdef : CdefParams) (rst : Fin 3 → RestorationInfo) (rb : ReadBitBuffer) :
    LosslessTailResult × ReadBitBuffer :=
  let lossless := xd_lossless c.qindex c.y_dc_delta_q c.u_dc_delta_q
    c.u_ac_delta_q c.v_dc_delta_q c.v_ac_delta_q
  let coded_lossless := is_coded_lossless c.seg_enabled lossless
  let all_lossless := coded_lossless && c.superres_unscaled
  let lf := if coded_lossless then { lf with filter_level0 := 0, filter_level1 := 0 } else lf
  let cdef :=
    if coded_lossless || !c.enable_cdef then
      { cdef with
        cdef_bits := 0
        cdef_strengths := Function.update cdef.cdef_strengths 0 0
        cdef_uv_strengths := Function.update cdef.cdef_uv_strengths 0 0 }
    else cdef
  let rst :=
    if all_lossless || !c.enable_restoration then
      fun p => { rst p with frame_restoration_type := RestorationType.RESTORE_NONE }
    else rst
  let (lf, rb) := setup_loopfilter c.num_planes c.allow_intrabc c.no_filter_for_ibc
    coded_lossless c.prev_frame_deltas c.default_ref_deltas c.default_mode_deltas lf rb
  let (cdef, rb) :=
    if !coded_lossless && c.enable_cdef then
      setup_cdef c.num_planes c.cdef_strength_bits c.allow_intrabc c.no_filter_for_ibc cdef rb
    else (cdef, rb)
  let (rst, rb) :=
    if !all_lossless && c.enable_restoration then
      decode_restoration_mode c.num_planes c.allow_intrabc c.no_filter_for_ibc
        c.sb128 c.subsampling_x c.subsampling_y rst rb
    else (rst, rb)
  let (txm, rb) := read_tx_mode coded_lossless rb
  ({ lossless := lossless, coded_lossless := coded_lossless,
     all_lossless := all_lossless, lf := lf, cdef := cdef, rst := rst,
     tx_mode := txm }, rb)

/-! ## Tile-buffer gathering (C3)

Embeds `read_is_valid` (decodeframe.c:121-123), `get_tile_buffer`
(1741-1766), the gathering loop of `get_tile_buffers` (1768-1806),
`setup_bool_decoder` (810-826) and the gather-then-decode structure of
`decode_tiles` (1863-2013).  The frame payload is a byte list; pointers
become offsets into it. -/

/-- External constant `AV1_MIN_TILE_SIZE_BYTES` (its libaom value is 1). -/
def AV1_MIN_TILE_SIZE_BYTES : Nat := 1

/-- One gathered tile buffer: start offset and byte count. -/
structure TileBufferDec where
  data : Nat
  size : Nat
deriving DecidableEq, Repr

/-- `read_is_valid` (decodeframe.c:121-123). -/
def read_is_valid (start len end_pos : Nat) : Bool :=
  len ≠ 0 && len ≤ end_pos - start

/-- `mem_get_varsize` (external): the little-endian value of `sz` bytes at
offset `pos`. -/
def mem_get_varsize (buf : List Nat) (pos sz : Nat) : Nat :=
  (List.range sz).foldr (fun i acc => acc * 256 + buf.getD (pos + i) 0 % 256) 0

/-- The error raised at decodeframe.c:1748-1750 and 817-819. -/
def truncatedTileLengthErr : DecErr :=
  ⟨.CORRUPT_FRAME, "Truncated packet or corrupt tile length"⟩

/-- The error raised at decodeframe.c:1755-1757. -/
def corruptTileSizeErr : DecErr :=
  ⟨.CORRUPT_FRAME, "Truncated packet or corrupt tile size"⟩

/-- The error raised at decodeframe.c:1792-1794. -/
def dataEndedErr : DecErr :=
  ⟨.CORRUPT_FRAME, "Data ended before all tiles were read."⟩

/-- `get_tile_buffer` (decodeframe.c:1741-1766): a non-last tile's size field
must fit, and the decoded size must not exceed the remaining payload; the last
tile takes all remaining bytes. -/
def get_tile_buffer (buf : List Nat) (data_end tile_size_bytes : Nat)
    (is_last : Bool) (data : Nat) : Except DecErr (TileBufferDec × Nat) :=
  if !is_last then
    if read_is_valid data tile_size_bytes data_end = false then
      throw truncatedTileLengthErr
    else
      let size := mem_get_varsize buf data tile_size_bytes + AV1_MIN_TILE_SIZE_BYTES
      let data := data + tile_size_bytes
      if data_end - data < size then throw corruptTileSizeErr
      else pure (⟨data, size⟩, data + size)
  else
    pure (⟨data, data_end - data⟩, data_end)

/-- The gathering loop of `get_tile_buffers` (decodeframe.c:1783-1805) over
the given tile indices. -/
def get_tile_buffers_loop (buf : List Nat) (data_end tile_size_bytes startTile endTile : Nat) :
    List Nat → Nat → Except DecErr (List TileBufferDec × Nat)
  | [], data => pure ([], data)
  | tc :: rest, data =>
    if tc < startTile ∨ endTile < tc then
      get_tile_buffers_loop buf data_end tile_size_bytes startTile endTile rest data
    else if data_end ≤ data then
      throw dataEndedErr
    else do
      let (b, data2) ← get_tile_buffer buf data_end tile_size_bytes (tc == endTile) data
      let (bs, data3) ← get_tile_buffers_loop buf data_end tile_size_bytes startTile endTile rest data2
      pure (b :: bs, data3)

/-- `get_tile_buffers` (decodeframe.c:1768-1806). -/
def get_tile_buffers (buf : List Nat) (data_end tile_size_bytes n_tiles startTile endTile data : Nat) :
    Except DecErr (List TileBufferDec × Nat) :=
  get_tile_buffers_loop buf data_end tile_size_bytes startTile endTile (List.range n_tiles) data

/-- The size-validation part of `setup_bool_decoder` (decodeframe.c:810-826). -/
def setup_bool_decoder (data_end : Nat) (b : TileBufferDec) : Except DecErr Unit :=
  if read_is_valid b.data b.size data_end = false then throw truncatedTileLengthErr
  else pure ()

/-- The gather-then-decode structure of `decode_tiles`
(decodeframe.c:1863-2013, non-large-scale path): first all tile buffers are
gathered, then each tile's bool decoder is initialised, and only then are
tiles decoded.  `decodeTile` abstracts the entropy decode and pixel
reconstruction of one tile (`decode_tile`); `π` is its output. -/
def decode_tiles {π : Type} (buf : List Nat)
    (tile_size_bytes n_tiles startTile endTile : Nat)
    (decodeTile : TileBufferDec → π) (data data_end : Nat) :
    Except DecErr (List π) := do
  let (bufs, _) ← get_tile_buffers buf data_end tile_size_bytes n_tiles startTile endTile data
  let _ ← bufs.mapM (setup_bool_decoder data_end)
  pure (bufs.map decodeTile)

/-! ## Coefficient-buffer zeroing (C4)

Embeds the dequantized-coefficient-buffer effect of
`inverse_transform_block` (decodeframe.c:139-149) and
`predict_and_reconstruct_intra_block` (151-187).  The buffer is a function
from coefficient position to value; the external DSP inverse transform only
reads the buffer, so the tracked effect is the trailing
`memset(dqcoeff, 0, (scan_line + 1) * sizeof(dqcoeff[0]))`. -/

/-- `inverse_transform_block` (decodeframe.c:139-149): after invoking the
external inverse transform, positions `0..scan_line` of the coefficient
buffer are zeroed. -/
def inverse_transform_block (dqcoeff : Nat → Int) (scan_line : Nat) : Nat → Int :=
  fun i => if i < scan_line + 1 then 0 else dqcoeff i

/-- The coefficient-buffer effect of one transform unit in
`predict_and_reconstruct_intra_block` (decodeframe.c:157-183): when the block
is not skipped, `av1_read_coeffs_txb_facade` (external, abstracted as
`read_coeffs`, returning the written buffer, `max_scan_line` and `eob`) fills
the buffer, and when `eob` is nonzero `inverse_transform_block` zeroes the
consumed region. -/
def predict_and_reconstruct_intra_block (skip : Bool)
    (read_coeffs : (Nat → Int) → (Nat → Int) × Nat × Nat)
    (dqcoeff : Nat → Int) : Nat → Int :=
  if skip then dqcoeff
  else
    let r := read_coeffs dqcoeff
    let dq := r.1
    let max_scan_line := r.2.1
    let eob := r.2.2
    if eob ≠ 0 then inverse_transform_block dq max_scan_line else dq

/-! ## Global motion (C5)

Embeds `read_global_motion_params` (decodeframe.c:2325-2399) and
`read_global_motion` (2401-2439).  The golomb-like
`aom_rb_read_signed_primitive_refsubexpfin` is an external BitReader
primitive, embedded as an oracle read; `get_shear_params` (av1/common,
external) is abstracted as a predicate on the decoded parameters. -/

/-- `TransformationType` by enum value: `IDENTITY = 0`, `TRANSLATION = 1`,
`ROTZOOM = 2`, `AFFINE = 3`. -/
abbrev TransformationType := Nat

/-- Identity transformation. -/
def IDENTITY : TransformationType := 0

/-- Translation-only transformation. -/
def TRANSLATION : TransformationType := 1

/-- Rotation-zoom transformation. -/
def ROTZOOM : TransformationType := 2

/-- Full affine transformation. -/
def AFFINE : TransformationType := 3

/-- External constant `WARPEDMODEL_PREC_BITS` (av1/common/mv.h). -/
def WARPEDMODEL_PREC_BITS : Nat := 16

/-- External constant `GM_ALPHA_PREC_BITS`. -/
def GM_ALPHA_PREC_BITS : Nat := 15

/-- External constant `GM_ABS_ALPHA_BITS`. -/
def GM_ABS_ALPHA_BITS : Nat := 12

/-- External constant `GM_ALPHA_PREC_DIFF`. -/
def GM_ALPHA_PREC_DIFF : Nat := WARPEDMODEL_PREC_BITS - GM_ALPHA_PREC_BITS

/-- External constant `GM_ALPHA_MAX`. -/
def GM_ALPHA_MAX : Nat := 2 ^ GM_ABS_ALPHA_BITS

/-- External constant `GM_ALPHA_DECODE_FACTOR`. -/
def GM_ALPHA_DECODE_FACTOR : Nat := 2 ^ GM_ALPHA_PREC_DIFF

/-- External constant `GM_TRANS_PREC_BITS`. -/
def GM_TRANS_PREC_BITS : Nat := 6

/-- External constant `GM_ABS_TRANS_BITS`. -/
def GM_ABS_TRANS_BITS : Nat := 12

/-- External constant `GM_TRANS_PREC_DIFF`. -/
def GM_TRANS_PREC_DIFF : Nat := WARPEDMODEL_PREC_BITS - GM_TRANS_PREC_BITS

/-- External constant `GM_TRANS_DECODE_FACTOR`. -/
def GM_TRANS_DECODE_FACTOR : Nat := 2 ^ GM_TRANS_PREC_DIFF

/-- External constant `GM_TRANS_ONLY_PREC_BITS`. -/
def GM_TRANS_ONLY_PREC_BITS : Nat := 3

/-- External constant `GM_ABS_TRANS_ONLY_BITS`. -/
def GM_ABS_TRANS_ONLY_BITS : Nat := 9

/-- External constant `GM_TRANS_ONLY_PREC_DIFF`. -/
def GM_TRANS_ONLY_PREC_DIFF : Nat := WARPEDMODEL_PREC_BITS - GM_TRANS_ONLY_PREC_BITS

/-- External constant `GM_TRANS_ONLY_DECODE_FACTOR`. -/
def GM_TRANS_ONLY_DECODE_FACTOR : Nat := 2 ^ GM_TRANS_ONLY_PREC_DIFF

/-- External constant `SUBEXPFIN_K`. -/
def SUBEXPFIN_K : Nat := 3

/-- Tracked fields of `WarpedMotionParams`. -/
structure WarpedMotionParams where
  wmtype : TransformationType
  wmmat : Fin 6 → Int
  invalid : Bool

/-- External constant `default_warp_params` (av1/common/mv.h): identity model,
diagonal entries at unit precision, not invalid. -/
def default_warp_params : WarpedMotionParams :=
  { wmtype := IDENTITY
    wmmat := fun i => if i = 2 ∨ i = 5 then 2 ^ WARPEDMODEL_PREC_BITS else 0
    invalid := false }

/-- `aom_rb_read_signed_primitive_refsubexpfin` (external BitReader
primitive): a golomb-like signed read centred on `ref`, embedded as one
oracle read shifted into the signed range `[-n+1, ...)`. -/
def aom_rb_read_signed_primitive_refsubexpfin (rb : ReadBitBuffer)
    (n k : Nat) (ref : Int) : Int × ReadBitBuffer :=
  let v := rb.vals.headD 0
  let _ := k
  let _ := ref
  ((v : Int) - (n : Int) + 1, ⟨rb.vals.tail⟩)

/-- `read_global_motion_params` (decodeframe.c:2325-2399): reads the
transformation type, the alpha/affine/translation residuals against
`ref_params`, and finally validates the shear parameters via the external
`get_shear_params` whenever the type is at most `AFFINE`; returns the decoded
parameters and the `good_params` flag. -/
def read_global_motion_params (get_shear_params : WarpedMotionParams → Bool)
    (ref_params : WarpedMotionParams) (allow_hp : Bool) (rb : ReadBitBuffer) :
    WarpedMotionParams × Bool × ReadBitBuffer :=
  let (tbit, rb) := aom_rb_read_bit rb
  let (ty, rb) :=
    if tbit == 1 then
      let (b1, rb) := aom_rb_read_bit rb
      if b1 == 1 then (ROTZOOM, rb)
      else
        let (b2, rb) := aom_rb_read_bit rb
        (if b2 == 1 then TRANSLATION else AFFINE, rb)
    else ((IDENTITY : TransformationType), rb)
  let params := { default_warp_params with wmtype := ty }
  let (params, rb) :=
    if ROTZOOM ≤ ty then
      let (m2, rb) := aom_rb_read_signed_primitive_refsubexpfin rb (GM_ALPHA_MAX + 1)
        SUBEXPFIN_K (Int.fdiv (ref_params.wmmat 2) (2 ^ GM_ALPHA_PREC_DIFF) -
          2 ^ GM_ALPHA_PREC_BITS)
      let (m3, rb) := aom_rb_read_signed_primitive_refsubexpfin rb (GM_ALPHA_MAX + 1)
        SUBEXPFIN_K (Int.fdiv (ref_params.wmmat 3) (2 ^ GM_ALPHA_PREC_DIFF))
      let wm : Fin 6 → Int := Function.update params.wmmat 2
        (m2 * (GM_ALPHA_DECODE_FACTOR : Int) + (2 : Int) ^ WARPEDMODEL_PREC_BITS)
      let wm := Function.update wm 3 (m3 * (GM_ALPHA_DECODE_FACTOR : Int))
      ({ params with wmmat := wm }, rb)
    else (params, rb)
  let (params, rb) :=
    if AFFINE ≤ ty then
      let (m4, rb) := aom_rb_read_signed_primitive_refsubexpfin rb (GM_ALPHA_MAX + 1)
        SUBEXPFIN_K (Int.fdiv (ref_params.wmmat 4) (2 ^ GM_ALPHA_PREC_DIFF))
      let (m5, rb) := aom_rb_read_signed_primitive_refsubexpfin rb (GM_ALPHA_MAX + 1)
        SUBEXPFIN_K (Int.fdiv (ref_params.wmmat 5) (2 ^ GM_ALPHA_PREC_DIFF) -
          2 ^ GM_ALPHA_PREC_BITS)
      let wm : Fin 6 → Int := Function.update params.wmmat 4
        (m4 * (GM_ALPHA_DECODE_FACTOR : Int))
      let wm := Function.update wm 5
        (m5 * (GM_ALPHA_DECODE_FACTOR : Int) + (2 : Int) ^ WARPEDMODEL_PREC_BITS)
      ({ params with wmmat := wm }, rb)
    else
      let wm : Fin 6 → Int := Function.update params.wmmat 4 (-(params.wmmat 3))
      let wm := Function.update wm 5 (params.wmmat 2)
      ({ params with wmmat := wm }, rb)
  let (params, rb) :=
    if TRANSLATION ≤ ty then
      let hp_adj : Nat := if allow_hp then 0 else 1
      let trans_bits := if ty = TRANSLATION then GM_ABS_TRANS_ONLY_BITS - hp_adj
        else GM_ABS_TRANS_BITS
      let trans_dec_factor : Nat := if ty = TRANSLATION then
        GM_TRANS_ONLY_DECODE_FACTOR * 2 ^ hp_adj else GM_TRANS_DECODE_FACTOR
      let trans_prec_diff := if ty = TRANSLATION then GM_TRANS_ONLY_PREC_DIFF + hp_adj
        else GM_TRANS_PREC_DIFF
      let (m0, rb) := aom_rb_read_signed_primitive_refsubexpfin rb (2 ^ trans_bits + 1)
        SUBEXPFIN_K (Int.fdiv (ref_params.wmmat 0) (2 ^ trans_prec_diff))
      let (m1, rb) := aom_rb_read_signed_primitive_refsubexpfin rb (2 ^ trans_bits + 1)
        SUBEXPFIN_K (Int.fdiv (ref_params.wmmat 1) (2 ^ trans_prec_diff))
      let wm : Fin 6 → Int := Function.update params.wmmat 0
        (m0 * (trans_dec_factor : Int))
      let wm := Function.update wm 1 (m1 * (trans_dec_factor : Int))
      ({ params with wmmat := wm }, rb)
    else (params, rb)
  if ty ≤ AFFINE then
    (params, get_shear_params params, rb)
  else (params, true, rb)

/-- The reference model of one global-motion read (decodeframe.c:2403-2405):
the previous frame's saved model, or the default model when there is no
previous frame. -/
def gm_ref_params (prev_gm : Option (Fin 7 → WarpedMotionParams)) (f : Fin 7) :
    WarpedMotionParams :=
  match prev_gm with
  | some p => p f
  | none => default_warp_params

/-- The per-reference loop of `read_global_motion` (decodeframe.c:2401-2437):
each reference decodes its parameters against the previous frame's model (or
the default model when there is no previous frame); a failed shear validation
marks the parameters invalid and the loop continues — no error is raised. -/
def read_global_motion_loop (get_shear_params : WarpedMotionParams → Bool)
    (prev_gm : Option (Fin 7 → WarpedMotionParams)) (allow_hp : Bool) :
    List (Fin 7) → (Fin 7 → WarpedMotionParams) → ReadBitBuffer →
      (Fin 7 → WarpedMotionParams) × ReadBitBuffer
  | [], gm, rb => (gm, rb)
  | f :: rest, gm, rb =>
    let ref_params := gm_ref_params prev_gm f
    let (params, good, rb) := read_global_motion_params get_shear_params ref_params allow_hp rb
    let params := if good then params else { params with invalid := true }
    read_global_motion_loop get_shear_params prev_gm allow_hp rest
      (Function.update gm f params) rb

/-- `read_global_motion` (decodeframe.c:2401-2439), over the seven inter
references `LAST_FRAME..ALTREF_FRAME`. -/
def read_global_motion (get_shear_params : WarpedMotionParams → Bool)
    (prev_gm : Option (Fin 7 → WarpedMotionParams)) (allow_hp : Bool)
    (gm : Fin 7 → WarpedMotionParams) (rb : ReadBitBuffer) :
    (Fin 7 → WarpedMotionParams) × ReadBitBuffer :=
  read_global_motion_loop get_shear_params prev_gm allow_hp (List.finRange 7) gm rb

/-! ## Film grain (C6)

Embeds `av1_read_film_grain_params` (decodeframe.c:2029-2058): the
apply-grain flag, seed, update flag, and the inherit-from-reference path.
The film-grain parameter block beyond the three leading fields is abstracted
as an opaque payload `α` copied wholesale, exactly as the struct assignment
at line 2055 copies it. -/

/-- Frame types by their 2-bit code. -/
inductive FRAME_TYPE where
  | KEY_FRAME
  | INTER_FRAME
  | INTRA_ONLY_FRAME
  | S_FRAME
deriving DecidableEq, Repr

/-- `aom_film_grain_t`: the three fields read before inheritance plus the
remaining parameter payload `rest` (scaling points, AR coefficients, ...). -/
structure FilmGrainParams (α : Type) where
  apply_grain : Bool
  random_seed : Nat
  update_parameters : Bool
  rest : α
deriving DecidableEq, Repr

/-- The film-grain state saved with one reference buffer (`RefCntBuffer`). -/
structure FgRefBuf (α : Type) where
  film_grain_params_present : Bool
  film_grain_params : FilmGrainParams α
deriving DecidableEq, Repr

/-- The error raised at decodeframe.c:2050-2053. -/
def filmGrainRefErr : DecErr :=
  ⟨.UNSUP_BITSTREAM, "Film grain reference parameters not available"⟩

/-- `av1_read_film_grain_params` (decodeframe.c:2029-2058): no grain zeroes
the parameter block; otherwise the 16-bit seed is read, INTER frames read the
update flag, and when no update is signaled the parameters are inherited from
the reference buffer named by a 3-bit index, keeping only the fresh seed, or
parsing fails when that buffer has no saved parameters.  `read_fresh_params`
abstracts the freshly-signaled path (lines 2060 onward); `zero_rest` is the
zeroed payload produced by the `memset` at line 2035. -/
def av1_read_film_grain_params {α : Type} (zero_rest : α)
    (read_fresh_params : FilmGrainParams α → ReadBitBuffer →
      Except DecErr (FilmGrainParams α × ReadBitBuffer))
    (frame_type : FRAME_TYPE) (ref_frame_map : Fin 8 → Int)
    (frame_bufs : Int → FgRefBuf α) (pars : FilmGrainParams α)
    (rb : ReadBitBuffer) : Except DecErr (FilmGrainParams α × ReadBitBuffer) := do
  let (ag, rb) := aom_rb_read_bit rb
  let pars := { pars with apply_grain := ag == 1 }
  if !pars.apply_grain then
    pure (({ apply_grain := false, random_seed := 0, update_parameters := false,
             rest := zero_rest } : FilmGrainParams α), rb)
  else
    let (seed, rb) := aom_rb_read_literal rb 16
    let pars := { pars with random_seed := seed }
    let (up, rb) :=
      if frame_type == .INTER_FRAME then
        let p := aom_rb_read_bit rb
        ((p.1 == 1 : Bool), p.2)
      else (true, rb)
    let pars := { pars with update_parameters := up }
    if !pars.update_parameters then
      let (ridx, rb) := aom_rb_read_literal rb 3
      let buf_idx := ref_frame_map (slotOf ridx)
      if !(frame_bufs buf_idx).film_grain_params_present then
        throw filmGrainRefErr
      else
        let random_seed := pars.random_seed
        let pars := (frame_bufs buf_idx).film_grain_params
        let pars := { pars with random_seed := random_seed }
        pure (pars, rb)
    else
      read_fresh_params pars rb

/-! ## Tile corruption escalation (C7)

Embeds the corruption-flag flow: the per-block merge at decodeframe.c:333-334
and the end-of-superblock-row escalation of `decode_tile_sb_row`
(1808-1822). -/

/-- Modelled from the spec: `aom_merge_corrupted_flag` is an external helper
(`*corrupted |= flag`); per the spec it merges by sticky OR, never clearing. -/
def aom_merge_corrupted_flag (corrupted flag : Bool) : Bool :=
  corrupted || flag

/-- The corruption effect of one block decode (decodeframe.c:333-334): the
reader-error flag is merged into the tile-wide flag. -/
def decode_mbmi_block_corrupt (xd_corrupted reader_error : Bool) : Bool :=
  aom_merge_corrupted_flag xd_corrupted reader_error

/-- The error raised at decodeframe.c:1819-1821. -/
def failedTileErr : DecErr := ⟨.CORRUPT_FRAME, "Failed to decode tile data"⟩

/-- The corruption-flag behaviour of `decode_tile_sb_row`
(decodeframe.c:1808-1822): every block of the superblock row merges its
reader-error flag into the tile flag; at the end of the row the tile flag is
merged into the frame flag, and a set flag raises a frame-fatal error.
`reader_errors` is the sequence of per-block reader-error flags observed
during the row. -/
def decode_tile_sb_row (mb_corrupted xd_corrupted : Bool)
    (reader_errors : List Bool) : Except DecErr (Bool × Bool) :=
  let xd := reader_errors.foldl decode_mbmi_block_corrupt xd_corrupted
  let mb := aom_merge_corrupted_flag mb_corrupted xd
  if mb then throw failedTileErr else pure (mb, xd)

/-! ## Partition reading and dispatch (C8, C10)

Embeds `read_partition` (decodeframe.c:666-693) and `decode_partition`
(696-808).  The adaptive CDF table and its gathered binary projections are
abstract types; `read_symbol`/`read_cdf` abstract the external SymbolDecoder. -/

/-- The ten partition shapes, by enum value 0..9. -/
inductive PARTITION_TYPE where
  | PARTITION_NONE
  | PARTITION_HORZ
  | PARTITION_VERT
  | PARTITION_SPLIT
  | PARTITION_HORZ_A
  | PARTITION_HORZ_B
  | PARTITION_VERT_A
  | PARTITION_VERT_B
  | PARTITION_HORZ_4
  | PARTITION_VERT_4
deriving DecidableEq, Repr

/-- Decodes the symbol value returned by the entropy decoder into a
`PARTITION_TYPE` (the C cast at decodeframe.c:677). -/
def partitionOfNat : Nat → PARTITION_TYPE
  | 0 => .PARTITION_NONE
  | 1 => .PARTITION_HORZ
  | 2 => .PARTITION_VERT
  | 3 => .PARTITION_SPLIT
  | 4 => .PARTITION_HORZ_A
  | 5 => .PARTITION_HORZ_B
  | 6 => .PARTITION_VERT_A
  | 7 => .PARTITION_VERT_B
  | 8 => .PARTITION_HORZ_4
  | _ => .PARTITION_VERT_4

/-- `read_partition` (decodeframe.c:666-693).  `partition_cdf` is the node's
adaptive table `ec_ctx->partition_cdf[ctx]` (abstract type `α`);
`partition_gather_vert_alike`/`partition_gather_horz_alike` are the external
gatherers producing a binary CDF (abstract type `β`); `read_symbol` and
`read_cdf` abstract `aom_read_symbol`/`aom_read_cdf`. -/
def read_partition {α β : Type} (partition_cdf : α)
    (partition_gather_vert_alike partition_gather_horz_alike : α → β)
    (partition_cdf_length : Nat)
    (read_symbol : AomReader → α → Nat → Nat × AomReader)
    (read_cdf : AomReader → β → Nat → Nat × AomReader)
    (has_rows has_cols : Bool) (r : AomReader) : PARTITION_TYPE × AomReader :=
  if !has_rows && !has_cols then (.PARTITION_SPLIT, r)
  else if has_rows && has_cols then
    let (v, r) := read_symbol r partition_cdf partition_cdf_length
    (partitionOfNat v, r)
  else if !has_rows && has_cols then
    let cdf := partition_gather_vert_alike partition_cdf
    let (v, r) := read_cdf r cdf 2
    (if v ≠ 0 then .PARTITION_SPLIT else .PARTITION_HORZ, r)
  else
    let cdf := partition_gather_horz_alike partition_cdf
    let (v, r) := read_cdf r cdf 2
    (if v ≠ 0 then .PARTITION_SPLIT else .PARTITION_VERT, r)

/-- One action dispatched by `decode_partition`: a leaf block decode
(`DEC_BLOCK`) or a recursive sub-partition (`DEC_PARTITION`). -/
inductive DecAction where
  | block (mi_row mi_col : Nat) (bsize : BLOCK_SIZE)
  | subpart (mi_row mi_col : Nat) (bsize : BLOCK_SIZE)
deriving DecidableEq, Repr

/-- The quarter-strip positions of the `_4` partitions with the loop's break
condition (decodeframe.c:785-798): the first strip is unconditional and each
later strip stops the loop once it starts past the coded grid. -/
def partition4_positions (start step bound : Nat) : List Nat :=
  start ::
    (if start + step < bound then
      (start + step) ::
        (if start + 2 * step < bound then
          (start + 2 * step) ::
            (if start + 3 * step < bound then [start + 3 * step] else [])
         else [])
     else [])

/-- The dispatch switch of `decode_partition` (decodeframe.c:749-800): the
child regions decoded for each partition shape. -/
def decode_partition_dispatch (mi_row mi_col hbs quarter_step : Nat)
    (subsize bsize2 : BLOCK_SIZE) (has_rows has_cols : Bool)
    (mi_rows mi_cols : Nat) : PARTITION_TYPE → List DecAction
  | .PARTITION_NONE => [.block mi_row mi_col subsize]
  | .PARTITION_HORZ =>
    .block mi_row mi_col subsize ::
      (if has_rows then [.block (mi_row + hbs) mi_col subsize] else [])
  | .PARTITION_VERT =>
    .block mi_row mi_col subsize ::
      (if has_cols then [.block mi_row (mi_col + hbs) subsize] else [])
  | .PARTITION_SPLIT =>
    [.subpart mi_row mi_col subsize, .subpart mi_row (mi_col + hbs) subsize,
     .subpart (mi_row + hbs) mi_col subsize,
     .subpart (mi_row + hbs) (mi_col + hbs) subsize]
  | .PARTITION_HORZ_A =>
    [.block mi_row mi_col bsize2, .block mi_row (mi_col + hbs) bsize2,
     .block (mi_row + hbs) mi_col subsize]
  | .PARTITION_HORZ_B =>
    [.block mi_row mi_col subsize, .block (mi_row + hbs) mi_col bsize2,
     .block (mi_row + hbs) (mi_col + hbs) bsize2]
  | .PARTITION_VERT_A =>
    [.block mi_row mi_col bsize2, .block (mi_row + hbs) mi_col bsize2,
     .block mi_row (mi_col + hbs) subsize]
  | .PARTITION_VERT_B =>
    [.block mi_row mi_col subsize, .block mi_row (mi_col + hbs) bsize2,
     .block (mi_row + hbs) (mi_col + hbs) bsize2]
  | .PARTITION_HORZ_4 =>
    (partition4_positions mi_row quarter_step mi_rows).map
      (fun rr => .block rr mi_col subsize)
  | .PARTITION_VERT_4 =>
    (partition4_positions mi_col quarter_step mi_cols).map
      (fun cc => .block mi_row cc subsize)

/-- The error raised at decodeframe.c:735-739 (message format elided). -/
def invalidBlockSizeErr : DecErr :=
  ⟨.CORRUPT_FRAME, "Block size invalid with this subsampling mode"⟩

/-- One level of `decode_partition` (decodeframe.c:696-808): outside-grid
regions return immediately; restoration coefficients for units anchored in
this region are read first (`read_restoration`, abstracting lines 711-725);
sub-8x8 regions fix `PARTITION_NONE` without reading a symbol, larger regions
read one via `read_partition`; the chroma-subsampling conformance check may
fail; finally the children are dispatched.  `mi_size_wide` and
`subsize_lookup` abstract the external block-geometry tables;
`plane_block_size_valid` abstracts `get_plane_block_size(subsize, pd_u) !=
BLOCK_INVALID`. -/
def decode_partition_step {α β : Type} (partition_cdf : α)
    (partition_gather_vert_alike partition_gather_horz_alike : α → β)
    (partition_cdf_length : Nat)
    (read_symbol : AomReader → α → Nat → Nat × AomReader)
    (read_cdf : AomReader → β → Nat → Nat × AomReader)
    (mi_size_wide : BLOCK_SIZE → Nat)
    (subsize_lookup : PARTITION_TYPE → BLOCK_SIZE → BLOCK_SIZE)
    (plane_block_size_valid : BLOCK_SIZE → Bool)
    (read_restoration : AomReader → AomReader)
    (mi_rows mi_cols mi_row mi_col : Nat) (bsize : BLOCK_SIZE) (r : AomReader) :
    Except DecErr (Option PARTITION_TYPE × List DecAction × AomReader) :=
  let num_8x8_wh := mi_size_wide bsize
  let hbs := num_8x8_wh / 2
  let quarter_step := num_8x8_wh / 4
  let bsize2 := subsize_lookup .PARTITION_SPLIT bsize
  let has_rows := decide (mi_row + hbs < mi_rows)
  let has_cols := decide (mi_col + hbs < mi_cols)
  if mi_rows ≤ mi_row ∨ mi_cols ≤ mi_col then pure (none, [], r)
  else
    let r := read_restoration r
    let (partition, r) :=
      if bsize < BLOCK_8X8 then (PARTITION_TYPE.PARTITION_NONE, r)
      else read_partition partition_cdf partition_gather_vert_alike
        partition_gather_horz_alike partition_cdf_length read_symbol read_cdf
        has_rows has_cols r
    let subsize := subsize_lookup partition bsize
    if plane_block_size_valid subsize = false then
      throw invalidBlockSizeErr
    else
      pure (some partition,
        decode_partition_dispatch mi_row mi_col hbs quarter_step subsize bsize2
          has_rows has_cols mi_rows mi_cols partition, r)

/-! ## Refresh-mask commit (C9)

Embeds the `refresh_frame_flags` handling (decodeframe.c:2729-2737) and the
`next_ref_frame_map` generation loops (2895-2918).  Buffer reference counts
are a function from buffer index to count. -/

/-- `cm->is_reference_frame` after the refresh-flag read
(decodeframe.c:2530 and 2733-2737): defaults to true, cleared when
`refresh_frame_flags` is zero. -/
def is_reference_frame_after_refresh (refresh_frame_flags : Nat) : Bool :=
  if refresh_frame_flags = 0 then false else true

/-- Increments one buffer's reference count. -/
def bump (cnt : Int → Nat) (b : Int) : Int → Nat :=
  Function.update cnt b (cnt b + 1)

/-- The two `next_ref_frame_map` generation loops (decodeframe.c:2897-2917):
while refresh bits remain, a set bit commits the new buffer into the slot
(incrementing its count) and a clear bit copies the current slot forward; in
both phases the current thread takes a hold on every populated current slot. -/
def commit_refresh_go (new_fb_idx : Nat) (ref_frame_map : Fin 8 → Int) :
    List (Fin 8) → Nat → (Fin 8 → Int) → (Int → Nat) →
      (Fin 8 → Int) × (Int → Nat)
  | [], _, nxt, cnt => (nxt, cnt)
  | ri :: rest, mask, nxt, cnt =>
    if mask ≠ 0 then
      let nxt2 := Function.update nxt ri
        (if mask % 2 = 1 then (new_fb_idx : Int) else ref_frame_map ri)
      let cnt2 := if mask % 2 = 1 then bump cnt (new_fb_idx : Int) else cnt
      let cnt3 := if 0 ≤ ref_frame_map ri then bump cnt2 (ref_frame_map ri) else cnt2
      commit_refresh_go new_fb_idx ref_frame_map rest (mask / 2) nxt2 cnt3
    else
      let nxt2 := Function.update nxt ri (ref_frame_map ri)
      let cnt2 := if 0 ≤ ref_frame_map ri then bump cnt (ref_frame_map ri) else cnt
      commit_refresh_go new_fb_idx ref_frame_map rest 0 nxt2 cnt2

/-- The `next_ref_frame_map` generation of `read_uncompressed_header`
(decodeframe.c:2895-2918), over the eight reference slots. -/
def generate_next_ref_frame_map (refresh_frame_flags new_fb_idx : Nat)
    (ref_frame_map : Fin 8 → Int) (nxt : Fin 8 → Int) (cnt : Int → Nat) :
    (Fin 8 → Int) × (Int → Nat) :=
  commit_refresh_go new_fb_idx ref_frame_map (List.finRange 8)
    refresh_frame_flags nxt cnt

/-! ## Reduction helpers for the `Except` monad -/

theorem except_bind_error {γ α β : Type} (e : γ) (f : α → Except γ β) :
    (Except.error e >>= f) = Except.error e := rfl

theorem except_bind_ok {γ α β : Type} (a : α) (f : α → Except γ β) :
    (Except.ok a >>= f) = f a := rfl

theorem except_throw {γ α : Type} (e : γ) :
    (throw e : Except γ α) = Except.error e := rfl

theorem except_pure {γ α : Type} (a : α) :
    (pure a : Except γ α) = Except.ok a := rfl

/-! ## C1: unpopulated reference slots fail the header parse -/

theorem except_map_error {γ α β : Type} (g : α → β) (e : γ) :
    (g <$> (Except.error e : Except γ α)) = Except.error e := rfl

theorem except_map_ok {γ α β : Type} (g : α → β) (a : α) :
    (g <$> (Except.ok a : Except γ α)) = Except.ok (g a) := rfl

theorem slotOf_mod (v : Nat) : slotOf (v % 8) = slotOf v := by
  apply Fin.ext
  show v % 8 % 8 = v % 8
  omega

theorem slotOf_read (v : Nat) : slotOf (v % 2 ^ 3) = slotOf v := by
  have h : (2 : Nat) ^ 3 = 8 := by norm_num
  rw [h]
  exact slotOf_mod v

theorem read_refs_loop_explicit_err (st : RefSigState)
    (hfid : st.frame_id_numbers_present_flag = false) (f : Fin 7 → RefEntry) :
    ∀ (is : List (Fin 7)) (vs suffix : List Nat),
      is.length = vs.length →
      (∃ v ∈ vs, st.ref_frame_map (slotOf v) = -1) →
      read_refs_loop st false f is ⟨vs ++ suffix⟩ = .error nonexistentRefErr := by
  intro is
  induction is with
  | nil =>
    intro vs suffix hlen hex
    have : vs = [] := List.length_eq_zero.mp (by simpa using hlen.symm)
    subst this
    simp at hex
  | cons i rest ih =>
    intro vs suffix hlen hex
    match vs with
    | [] => simp at hlen
    | v :: vs2 =>
      by_cases hv : st.ref_frame_map (slotOf v) = -1
      · simp only [read_refs_loop, read_one_ref, aom_rb_read_literal, hfid,
          Bool.false_eq_true, if_false, except_throw, except_pure, List.cons_append,
          List.headD_cons, List.tail_cons, slotOf_read, hv, if_true, ite_true,
          except_bind_error, except_bind_ok, except_map_error, except_map_ok]
      · have hex2 : ∃ w ∈ vs2, st.ref_frame_map (slotOf w) = -1 := by
          rcases hex with ⟨w, hw, hmap⟩
          rcases List.mem_cons.mp hw with h | h
          · exact absurd (h ▸ hmap) hv
          · exact ⟨w, h, hmap⟩
        have hrec := ih vs2 suffix (by simpa using hlen) hex2
        simp only [read_refs_loop, read_one_ref, aom_rb_read_literal, hfid,
          Bool.false_eq_true, if_false, except_throw, except_pure, List.cons_append,
          List.headD_cons, List.tail_cons, slotOf_read, hv, ite_false, if_false,
          except_bind_error, except_bind_ok, except_map_error, except_map_ok]
        rw [hrec]
        rw [except_bind_error]

theorem read_one_ref_ok_idx (st : RefSigState) (f : Fin 7 → RefEntry) (i : Fin 7)
    (rb : ReadBitBuffer) (e : RefEntry) (rb1 : ReadBitBuffer) :
    read_one_ref st false f i rb = .ok (e, rb1) → e.idx ≠ -1 := by
  intro h
  unfold read_one_ref at h
  simp only [Bool.false_eq_true, if_false, aom_rb_read_literal, except_throw,
    except_pure] at h
  split at h
  next hv =>
    simp only [except_bind_error] at h
    exact absurd h (by simp)
  next hv =>
    simp only [except_bind_ok] at h
    split at h
    · split at h
      · exact absurd h (by simp)
      · simp only [except_pure, Except.ok.injEq, Prod.mk.injEq] at h
        rw [← h.1]
        exact hv
    · simp only [except_pure, Except.ok.injEq, Prod.mk.injEq] at h
      rw [← h.1]
      exact hv

theorem except_bind_ok_inv {γ α β : Type} {x : Except γ α} {k : α → Except γ β}
    {b : β} (h : (x >>= k) = .ok b) : ∃ a, x = .ok a ∧ k a = .ok b := by
  cases x with
  | error e => rw [except_bind_error] at h; exact absurd h (by simp)
  | ok a => exact ⟨a, rfl, by rw [except_bind_ok] at h; exact h⟩

theorem read_refs_loop_ok_no_stale (st : RefSigState) (f : Fin 7 → RefEntry) :
    ∀ (is : List (Fin 7)) (rb : ReadBitBuffer) (es : List RefEntry)
      (rb2 : ReadBitBuffer),
      read_refs_loop st false f is rb = .ok (es, rb2) → ∀ e ∈ es, e.idx ≠ -1 := by
  intro is
  induction is with
  | nil =>
    intro rb es rb2 h e he
    simp only [read_refs_loop, except_pure, Except.ok.injEq, Prod.mk.injEq] at h
    rw [← h.1] at he
    simp at he
  | cons i rest ih =>
    intro rb es rb2 h e he
    simp only [read_refs_loop] at h
    obtain ⟨⟨e1, rb1⟩, h1, hk⟩ := except_bind_ok_inv h
    obtain ⟨⟨es1, rb3⟩, h2, hk2⟩ := except_bind_ok_inv hk
    simp only [except_pure, Except.ok.injEq, Prod.mk.injEq] at hk2
    rw [← hk2.1] at he
    rcases List.mem_cons.mp he with hh | hh
    · rw [hh]
      exact read_one_ref_ok_idx st f i rb e1 rb1 h1
    · exact ih rb1 es1 rb3 h2 e hh

/-- C1: in a full (non-show-existing) inter frame header, a signaled reference
slot whose `ref_frame_map` entry is `-1` makes `read_uncompressed_header` fail
with the `CORRUPT_FRAME` error "Inter frame requests nonexistent reference":
(1) under short signaling, a never-populated last or golden slot fails;
(2) under explicit per-reference signaling (frame-id numbers absent, so each
iteration reads exactly one slot index), a never-populated slot among the
seven signaled ones fails; (3) a successful explicit parse resolves only
populated slots, so stale (`-1`) buffer indices are never returned. -/
theorem C1_unpopulated_reference_slot_fails :
    (∀ (st : RefSigState) (f : Fin 8 → Fin 8 → Fin 7 → RefEntry)
        (lst gld : Nat) (rest : List Nat),
        st.enable_order_hint = true →
        (st.ref_frame_map (slotOf lst) = -1 ∨ st.ref_frame_map (slotOf gld) = -1) →
        read_inter_frame_refs st f ⟨1 :: lst :: gld :: rest⟩ =
          .error nonexistentRefErr) ∧
    (∀ (st : RefSigState) (f : Fin 8 → Fin 8 → Fin 7 → RefEntry)
        (vs suffix : List Nat),
        st.enable_order_hint = false →
        st.frame_id_numbers_present_flag = false →
        vs.length = 7 →
        (∃ v ∈ vs, st.ref_frame_map (slotOf v) = -1) →
        read_inter_frame_refs st f ⟨vs ++ suffix⟩ = .error nonexistentRefErr) ∧
    (∀ (st : RefSigState) (f : Fin 8 → Fin 8 → Fin 7 → RefEntry)
        (rb : ReadBitBuffer) (short : Bool) (es : List RefEntry)
        (rb2 : ReadBitBuffer),
        st.enable_order_hint = false →
        read_inter_frame_refs st f rb = .ok (short, es, rb2) →
        ∀ e ∈ es, e.idx ≠ -1) := by
  refine ⟨?short, ?explicit, ?stale⟩
  case short =>
    intro st f lst gld rest henb hex
    unfold read_inter_frame_refs
    by_cases hlst : st.ref_frame_map (slotOf lst) = -1
    · simp only [henb, if_true, ite_true, aom_rb_read_bit, aom_rb_read_literal,
        List.headD_cons, List.tail_cons, slotOf_read, hlst, Nat.reduceMod,
        beq_self_eq_true, if_true, ite_true, except_throw, except_bind_error,
        except_bind_ok, except_pure]
      norm_num
    · have hgld : st.ref_frame_map (slotOf gld) = -1 := hex.resolve_left hlst
      simp only [henb, if_true, ite_true, aom_rb_read_bit, aom_rb_read_literal,
        List.headD_cons, List.tail_cons, slotOf_read, hlst, hgld, Nat.reduceMod,
        beq_self_eq_true, if_true, ite_true, ite_false, if_false, except_throw,
        except_bind_error, except_bind_ok, except_pure]
      norm_num
  case explicit =>
    intro st f vs suffix henb hfid hlen hex
    have herr := read_refs_loop_explicit_err st hfid (fun _ => ⟨0, 0⟩)
      (List.finRange 7) vs suffix (by simp [hlen]) hex
    unfold read_inter_frame_refs
    simp only [henb, Bool.false_eq_true, if_false, ite_false]
    rw [herr]
    rw [except_bind_error]
  case stale =>
    intro st f rb short es rb2 henb h e he
    unfold read_inter_frame_refs at h
    simp only [henb, Bool.false_eq_true, if_false, ite_false] at h
    obtain ⟨⟨es1, rb1⟩, hloop, hk⟩ := except_bind_ok_inv h
    simp only [except_pure, Except.ok.injEq, Prod.mk.injEq] at hk
    rw [← hk.2.1] at he
    exact read_refs_loop_ok_no_stale st _ (List.finRange 7) rb es1 rb1 hloop e he

/-- Concrete instance of C1: short signaling of slot 0 when every slot is
unpopulated fails with the nonexistent-reference error. -/
theorem C1_unpopulated_reference_slot_fails_witness :
    read_inter_frame_refs
      ⟨fun _ => -1, true, false, 0, 0, 0, fun _ => 0, fun _ => true⟩
      (fun _ _ _ => ⟨0, 0⟩) ⟨[1, 0, 0]⟩ = .error nonexistentRefErr :=
  C1_unpopulated_reference_slot_fails.1
    ⟨fun _ => -1, true, false, 0, 0, 0, fun _ => 0, fun _ => true⟩
    (fun _ _ _ => ⟨0, 0⟩) 0 0 [] rfl (Or.inl rfl)

/-! ## C2: coded-lossless frames force 4x4 transforms and skip all filters -/

theorem xd_lossless_all_true (c : LosslessCtx) (hq : ∀ i, c.qindex i = 0)
    (hy : c.y_dc_delta_q = 0) (hu1 : c.u_dc_delta_q = 0) (hu2 : c.u_ac_delta_q = 0)
    (hv1 : c.v_dc_delta_q = 0) (hv2 : c.v_ac_delta_q = 0) :
    xd_lossless c.qindex c.y_dc_delta_q c.u_dc_delta_q c.u_ac_delta_q
      c.v_dc_delta_q c.v_ac_delta_q = fun _ => true :=
  funext fun i => by simp [xd_lossless, hq i, hy, hu1, hu2, hv1, hv2]

theorem is_coded_lossless_all_true (seg_enabled : Bool) :
    is_coded_lossless seg_enabled (fun _ => true) = true := by
  cases seg_enabled <;> simp [is_coded_lossless]

/-- C2: whenever every segment's effective quantizer index is zero and all six
frame-level delta-q values are zero, the parser computes
`coded_lossless = true`, `read_tx_mode` returns `ONLY_4X4`, both deblocking
filter levels are forced to zero (and `setup_loopfilter` leaves them so), the
CDEF bits and first strengths are zeroed (and `setup_cdef` is skipped), with
unscaled superres all three planes' restoration type becomes `RESTORE_NONE`,
and `read_tx_size` returns `TX_4X4` for every block while the
variable-transform-size path is never taken. -/
theorem C2_coded_lossless_forces_smallest_tx (c : LosslessCtx)
    (lf : LoopFilterParams) (cdef : CdefParams) (rst : Fin 3 → RestorationInfo)
    (rb : ReadBitBuffer)
    (hq : ∀ i, c.qindex i = 0)
    (hy : c.y_dc_delta_q = 0) (hu1 : c.u_dc_delta_q = 0) (hu2 : c.u_ac_delta_q = 0)
    (hv1 : c.v_dc_delta_q = 0) (hv2 : c.v_ac_delta_q = 0) :
    (header_lossless_tail c lf cdef rst rb).1.coded_lossless = true ∧
    (header_lossless_tail c lf cdef rst rb).1.tx_mode = TX_MODE.ONLY_4X4 ∧
    (header_lossless_tail c lf cdef rst rb).1.lf.filter_level0 = 0 ∧
    (header_lossless_tail c lf cdef rst rb).1.lf.filter_level1 = 0 ∧
    (header_lossless_tail c lf cdef rst rb).1.cdef.cdef_bits = 0 ∧
    (header_lossless_tail c lf cdef rst rb).1.cdef.cdef_strengths 0 = 0 ∧
    (header_lossless_tail c lf cdef rst rb).1.cdef.cdef_uv_strengths 0 = 0 ∧
    (c.superres_unscaled = true →
      ∀ p, ((header_lossless_tail c lf cdef rst rb).1.rst p).frame_restoration_type = RestorationType.RESTORE_NONE) ∧
    (∀ (segment_id : Fin 8) (bs : Bool) (rsel : AomReader → TX_SIZE × AomReader)
        (t1 t2 : TX_SIZE) (ii asi : Bool) (r : AomReader),
      read_tx_size (header_lossless_tail c lf cdef rst rb).1.lossless segment_id (header_lossless_tail c lf cdef rst rb).1.tx_mode bs rsel t1 t2 ii asi r
        = (TX_4X4, r)) ∧
    (∀ (bs skip ib : Bool) (segment_id : Fin 8),
      decode_block_uses_vartx (header_lossless_tail c lf cdef rst rb).1.tx_mode bs skip ib
        ((header_lossless_tail c lf cdef rst rb).1.lossless segment_id) = false) := by
  have hxl := xd_lossless_all_true c hq hy hu1 hu2 hv1 hv2
  have hres : (header_lossless_tail c lf cdef rst rb).1 =
      { lossless := fun _ => true, coded_lossless := true, all_lossless := c.superres_unscaled,
         lf := { lf with filter_level0 := 0, filter_level1 := 0 },
         cdef := { cdef with
           cdef_bits := 0
           cdef_strengths := Function.update cdef.cdef_strengths 0 0
           cdef_uv_strengths := Function.update cdef.cdef_uv_strengths 0 0 },
         rst := ((header_lossless_tail c lf cdef rst rb).1).rst,
         tx_mode := TX_MODE.ONLY_4X4 } := by
    simp only [header_lossless_tail, hxl, is_coded_lossless_all_true,
      Bool.true_and, Bool.true_or, if_true, ite_true, Bool.not_true,
      Bool.false_and, Bool.false_eq_true, if_false, ite_false, setup_loopfilter,
      Bool.or_true, read_tx_mode]
  refine ⟨?_, ?_, ?_, ?_, ?_, ?_, ?_, ?_, ?_, ?_⟩
  · rw [hres]
  · rw [hres]
  · rw [hres]
  · rw [hres]
  · rw [hres]
  · rw [hres]
    exact Function.update_same 0 0 cdef.cdef_strengths
  · rw [hres]
    exact Function.update_same 0 0 cdef.cdef_uv_strengths
  · intro hsup p
    simp only [header_lossless_tail, hxl, is_coded_lossless_all_true, hsup,
      Bool.true_and, Bool.true_or, if_true, ite_true, Bool.not_true,
      Bool.false_and, Bool.false_eq_true, if_false, ite_false]
  · intro segment_id bs rsel t1 t2 ii asi r
    rw [hres]
    simp [read_tx_size]
  · intro bs skip ib segment_id
    rw [hres]
    simp [decode_block_uses_vartx]

/-- Concrete instance of C2 at base_qindex 0 with all delta-q zero. -/
theorem C2_coded_lossless_forces_smallest_tx_witness :
    ((header_lossless_tail
        ⟨false, fun _ => 0, 0, 0, 0, 0, 0, true, true, true, false, false, 3,
          false, 1, 1, 7, none, fun _ => 0, fun _ => 0⟩
        ⟨63, 63, 0, 0, 0, false, false, fun _ => 0, fun _ => 0⟩
        ⟨3, 3, 2, 4, fun _ => 5, fun _ => 5⟩
        (fun _ => ⟨RestorationType.RESTORE_WIENER, 256⟩) ⟨[]⟩).1).coded_lossless
      = true := by
  have h := C2_coded_lossless_forces_smallest_tx
    ⟨false, fun _ => 0, 0, 0, 0, 0, 0, true, true, true, false, false, 3,
      false, 1, 1, 7, none, fun _ => 0, fun _ => 0⟩
    ⟨63, 63, 0, 0, 0, false, false, fun _ => 0, fun _ => 0⟩
    ⟨3, 3, 2, 4, fun _ => 5, fun _ => 5⟩
    (fun _ => ⟨RestorationType.RESTORE_WIENER, 256⟩) ⟨[]⟩
    (fun _ => rfl) rfl rfl rfl rfl rfl
  exact h.1

/-! ## C3: oversized tile length aborts before any tile decode -/

/-- C3: a non-final tile whose decoded length field describes more bytes than
remain in the frame payload makes tile-buffer gathering raise `CORRUPT_FRAME`
("Truncated packet or corrupt tile size", or "Truncated packet or corrupt
tile length" when even the size field does not fit); and since `decode_tiles`
gathers all tile buffers before decoding any tile, a gathering error makes
`decode_tiles` fail with that error for every possible per-tile decode
function — no tile is ever decoded. -/
theorem C3_truncated_tile_aborts_before_decode :
    (∀ (buf : List Nat) (data_end tile_size_bytes data : Nat),
        read_is_valid data tile_size_bytes data_end = true →
        data_end - (data + tile_size_bytes) <
          mem_get_varsize buf data tile_size_bytes + AV1_MIN_TILE_SIZE_BYTES →
        get_tile_buffer buf data_end tile_size_bytes false data =
          .error corruptTileSizeErr) ∧
    (∀ (buf : List Nat) (data_end tile_size_bytes data : Nat),
        read_is_valid data tile_size_bytes data_end = false →
        get_tile_buffer buf data_end tile_size_bytes false data =
          .error truncatedTileLengthErr) ∧
    (∀ (π : Type) (buf : List Nat)
        (tile_size_bytes n_tiles startTile endTile data data_end : Nat)
        (e : DecErr) (f : TileBufferDec → π),
        get_tile_buffers buf data_end tile_size_bytes n_tiles startTile endTile data
          = .error e →
        decode_tiles buf tile_size_bytes n_tiles startTile endTile f data data_end
          = .error e) := by
  refine ⟨?sizeErr, ?lenErr, ?noDecode⟩
  case sizeErr =>
    intro buf data_end tile_size_bytes data hvalid hover
    simp only [get_tile_buffer, hvalid, Bool.not_false, Bool.true_eq_false,
      if_false, ite_false, if_true, ite_true, hover, except_throw]
  case lenErr =>
    intro buf data_end tile_size_bytes data hvalid
    simp only [get_tile_buffer, hvalid, Bool.not_false, if_true, ite_true,
      except_throw]
  case noDecode =>
    intro π buf tile_size_bytes n_tiles startTile endTile data data_end e f h
    simp only [decode_tiles]
    rw [h]
    rw [except_bind_error]

/-- Concrete instance of C3: two one-byte-size-field tiles in a 2-byte payload
whose first tile claims 6 bytes; gathering fails with the corrupt-tile-size
error and `decode_tiles` propagates it without decoding anything. -/
theorem C3_truncated_tile_aborts_before_decode_witness :
    get_tile_buffer [5, 0] 2 1 false 0 = .error corruptTileSizeErr ∧
    decode_tiles [5, 0] 1 2 0 1 (fun _ => (0 : Nat)) 0 2 =
      .error corruptTileSizeErr :=
  ⟨C3_truncated_tile_aborts_before_decode.1 [5, 0] 2 1 0 (by decide) (by decide),
   C3_truncated_tile_aborts_before_decode.2.2 Nat [5, 0] 1 2 0 1 0 2
     corruptTileSizeErr (fun _ => (0 : Nat)) (by rfl)⟩

/-! ## C4: coefficient buffers are zeroed after every transform unit -/

/-- C4: `inverse_transform_block` zeroes the dequantized-coefficient buffer
from position 0 through `scan_line`; consequently, a transform unit processed
on an all-zero buffer by `predict_and_reconstruct_intra_block` leaves the
buffer all-zero again — provided the external coefficient reader only writes
positions up to its reported `max_scan_line` and writes nothing when `eob` is
zero — so the next unit never observes residue from a previous unit. -/
theorem C4_dqcoeff_zeroed_after_unit :
    (∀ (dq : Nat → Int) (scan_line i : Nat), i ≤ scan_line →
        inverse_transform_block dq scan_line i = 0) ∧
    (∀ (skip : Bool) (read_coeffs : (Nat → Int) → (Nat → Int) × Nat × Nat)
        (dq : Nat → Int),
        (∀ i, dq i = 0) →
        (∀ b j, (read_coeffs b).2.1 < j → (read_coeffs b).1 j = b j) →
        (∀ b, (read_coeffs b).2.2 = 0 → (read_coeffs b).1 = b) →
        ∀ i, predict_and_reconstruct_intra_block skip read_coeffs dq i = 0) := by
  constructor
  · intro dq scan_line i hi
    simp [inverse_transform_block, Nat.lt_succ_of_le hi]
  · intro skip read_coeffs dq hz hwrites heob i
    unfold predict_and_reconstruct_intra_block
    by_cases hs : skip = true
    · simp [hs, hz]
    · simp only [hs, Bool.false_eq_true, if_false, ite_false]
      by_cases he : (read_coeffs dq).2.2 = 0
      · simp only [he, ne_eq, not_true_eq_false, if_false, ite_false]
        rw [heob dq he]
        exact hz i
      · simp only [he, ne_eq, not_false_eq_true, if_true, ite_true]
        unfold inverse_transform_block
        by_cases hi : i < (read_coeffs dq).2.1 + 1
        · simp [hi]
        · simp only [hi, if_false, ite_false]
          rw [hwrites dq i (by omega)]
          exact hz i

/-- Concrete instance of C4: a unit writing positions 0..3 on an all-zero
buffer leaves the buffer zero at every probed position. -/
theorem C4_dqcoeff_zeroed_after_unit_witness :
    inverse_transform_block (fun _ => 5) 10 4 = 0 ∧
    predict_and_reconstruct_intra_block false
      (fun b => (fun j => if j ≤ 3 then 7 else b j, 3, 1)) (fun _ => 0) 2 = 0 :=
  by
  constructor
  · exact C4_dqcoeff_zeroed_after_unit.1 (fun _ => 5) 10 4 (by decide)
  · refine C4_dqcoeff_zeroed_after_unit.2 false _ (fun _ => 0)
      (fun _ => rfl) ?hw ?he 2
    case hw =>
      intro b j hj
      have hj3 : 3 < j := hj
      show (if j ≤ 3 then 7 else b j) = b j
      exact if_neg (by omega)
    case he =>
      intro b h
      simp at h

/-! ## C5: non-invertible shear marks parameters invalid, no error -/

theorem read_global_motion_params_good_eq_false (gsp : WarpedMotionParams → Bool)
    (hgsp : ∀ p, gsp p = false) (rp : WarpedMotionParams) (hp : Bool)
    (rb : ReadBitBuffer) :
    (read_global_motion_params gsp rp hp rb).2.1 = false := by
  unfold read_global_motion_params
  simp only [aom_rb_read_bit, aom_rb_read_literal, pow_one, hgsp, beq_iff_eq,
    IDENTITY, TRANSLATION, ROTZOOM, AFFINE]
  by_cases h0 : rb.vals.headD 0 % 2 = 1
  · simp only [h0, eq_self_iff_true, if_true, ite_true]
    by_cases h1 : rb.vals.tail.headD 0 % 2 = 1
    · simp only [h1, eq_self_iff_true, if_true, ite_true]
      norm_num
    · simp only [if_neg h1]
      by_cases h2 : rb.vals.tail.tail.headD 0 % 2 = 1
      · simp only [h2, eq_self_iff_true, if_true, ite_true]
        norm_num
      · simp only [if_neg h2]
        norm_num
  · simp only [if_neg h0]
    norm_num

theorem read_global_motion_loop_invalid (gsp : WarpedMotionParams → Bool)
    (hgsp : ∀ p, gsp p = false) (prev : Option (Fin 7 → WarpedMotionParams))
    (hp : Bool) :
    ∀ (l : List (Fin 7)) (gm : Fin 7 → WarpedMotionParams) (rb : ReadBitBuffer)
      (f : Fin 7),
      (f ∈ l ∨ (gm f).invalid = true) →
      ((read_global_motion_loop gsp prev hp l gm rb).1 f).invalid = true := by
  intro l
  induction l with
  | nil =>
    intro gm rb f hf
    rcases hf with h | h
    · simp at h
    · simpa [read_global_motion_loop] using h
  | cons g rest ih =>
    intro gm rb f hf
    rcases hEq : read_global_motion_params gsp (gm_ref_params prev g) hp rb
      with ⟨params, good, rb2⟩
    have hgood := read_global_motion_params_good_eq_false gsp hgsp
      (gm_ref_params prev g) hp rb
    rw [hEq] at hgood
    simp only at hgood
    subst hgood
    simp only [read_global_motion_loop, hEq, Bool.false_eq_true, if_false,
      ite_false]
    apply ih
    by_cases hfg : f = g
    · right
      rw [hfg, Function.update_same]
    · rcases hf with h | h
      · rcases List.mem_cons.mp h with h2 | h2
        · exact absurd h2 hfg
        · exact Or.inl h2
      · right
        rw [Function.update_noteq hfg]
        exact h

/-- C5 counterexample: with shear validation failing on every decoded model
(`get_shear_params` constantly false), `read_global_motion` at a concrete
input completes normally — no corrupt/unsupported-bitstream error is ever
signaled by the global-motion section (its embedding is total, mirroring the
absence of any `aom_internal_error` call at decodeframe.c:2408-2413) — and
merely marks the reference's parameters invalid. -/
theorem C5_shear_failure_signals_no_error_counterexample :
    ((read_global_motion (fun _ => false) none true
        (fun _ => default_warp_params) ⟨[]⟩).1 0).invalid = true ∧
    ((read_global_motion (fun _ => false) none true
        (fun _ => default_warp_params) ⟨[]⟩).1 0).wmtype = IDENTITY ∧
    (read_global_motion (fun _ => false) none true
        (fun _ => default_warp_params) ⟨[]⟩).2 = ⟨[]⟩ := by
  refine ⟨by decide, by decide, by decide⟩

/-- C5 (amended): for every non-intra frame header, when the decoded
global-motion parameters for a reference have non-invertible shear
(`get_shear_params` fails), the header parse does not fail; it marks that
reference's global-motion parameters `invalid` and continues. -/
theorem C5_invalid_shear_marks_params_invalid
    (gsp : WarpedMotionParams → Bool) (hgsp : ∀ p, gsp p = false)
    (prev : Option (Fin 7 → WarpedMotionParams)) (hp : Bool)
    (gm : Fin 7 → WarpedMotionParams) (rb : ReadBitBuffer) (f : Fin 7) :
    ((read_global_motion gsp prev hp gm rb).1 f).invalid = true := by
  unfold read_global_motion
  exact read_global_motion_loop_invalid gsp hgsp prev hp (List.finRange 7) gm rb f
    (Or.inl (List.mem_finRange f))

/-- Concrete instance of the amended C5. -/
theorem C5_invalid_shear_marks_params_invalid_witness :
    ((read_global_motion (fun _ => false) none false
        (fun _ => default_warp_params) ⟨[1, 1]⟩).1 3).invalid = true :=
  C5_invalid_shear_marks_params_invalid (fun _ => false) (fun _ => rfl) none
    false (fun _ => default_warp_params) ⟨[1, 1]⟩ 3

/-! ## C6: film-grain inheritance keeps everything but the seed -/

/-- C6: for an INTER frame with `apply_grain` set and `update_parameters`
read as false, `av1_read_film_grain_params` returns exactly the film-grain
parameter set saved with the reference buffer named by the 3-bit index, with
only `random_seed` replaced by the freshly read 16-bit value; when that
buffer has no saved parameters it fails with `UNSUP_BITSTREAM`
"Film grain reference parameters not available". -/
theorem C6_film_grain_inherited_except_seed (α : Type) (zero_rest : α)
    (read_fresh : FilmGrainParams α → ReadBitBuffer →
      Except DecErr (FilmGrainParams α × ReadBitBuffer))
    (ref_frame_map : Fin 8 → Int) (frame_bufs : Int → FgRefBuf α)
    (pars : FilmGrainParams α) (seed ridx : Nat) (rest : List Nat) :
    ((frame_bufs (ref_frame_map (slotOf ridx))).film_grain_params_present = true →
      av1_read_film_grain_params zero_rest read_fresh .INTER_FRAME ref_frame_map
        frame_bufs pars ⟨1 :: seed :: 0 :: ridx :: rest⟩ =
        .ok ({ (frame_bufs (ref_frame_map (slotOf ridx))).film_grain_params with
                random_seed := seed % 2 ^ 16 }, ⟨rest⟩)) ∧
    ((frame_bufs (ref_frame_map (slotOf ridx))).film_grain_params_present = false →
      av1_read_film_grain_params zero_rest read_fresh .INTER_FRAME ref_frame_map
        frame_bufs pars ⟨1 :: seed :: 0 :: ridx :: rest⟩ =
        .error filmGrainRefErr) := by
  constructor
  · intro hpres
    simp [av1_read_film_grain_params, aom_rb_read_bit, aom_rb_read_literal,
      slotOf_read, slotOf_mod, hpres, except_throw, except_pure, except_bind_ok,
      except_bind_error]
  · intro hpres
    simp [av1_read_film_grain_params, aom_rb_read_bit, aom_rb_read_literal,
      slotOf_read, slotOf_mod, hpres, except_throw, except_pure, except_bind_ok,
      except_bind_error]

/-- Concrete instance of C6: inheriting from slot 2 keeps the saved payload
and refreshes the seed; an absent reference fails. -/
theorem C6_film_grain_inherited_except_seed_witness :
    av1_read_film_grain_params 0
      (fun p rb => .ok (p, rb)) .INTER_FRAME (fun _ => 5)
      (fun _ => ⟨true, ⟨true, 99, true, 42⟩⟩) ⟨false, 0, false, 0⟩
      ⟨[1, 7, 0, 2]⟩ =
      .ok (⟨true, 7, true, 42⟩, ⟨[]⟩) ∧
    av1_read_film_grain_params 0
      (fun p rb => .ok (p, rb)) .INTER_FRAME (fun _ => 5)
      (fun _ => ⟨false, ⟨true, 99, true, 42⟩⟩) ⟨false, 0, false, 0⟩
      ⟨[1, 7, 0, 2]⟩ =
      .error filmGrainRefErr := by
  constructor
  · have h := (C6_film_grain_inherited_except_seed Nat 0
      (fun p rb => .ok (p, rb)) (fun _ => 5)
      (fun _ => ⟨true, ⟨true, 99, true, 42⟩⟩) ⟨false, 0, false, 0⟩ 7 2 []).1
      (by decide)
    simpa using h
  · exact (C6_film_grain_inherited_except_seed Nat 0
      (fun p rb => .ok (p, rb)) (fun _ => 5)
      (fun _ => ⟨false, ⟨true, 99, true, 42⟩⟩) ⟨false, 0, false, 0⟩ 7 2 []).2
      (by decide)

/-! ## C7: sticky corruption flag escalates at the superblock-row boundary -/

theorem foldl_merge_eq (xd : Bool) (errs : List Bool) :
    errs.foldl decode_mbmi_block_corrupt xd = (xd || errs.any id) := by
  induction errs generalizing xd with
  | nil => simp [decode_mbmi_block_corrupt, aom_merge_corrupted_flag]
  | cons e rest ih =>
    simp [List.foldl, ih, decode_mbmi_block_corrupt, aom_merge_corrupted_flag,
      Bool.or_assoc]

/-- C7: per-block reader errors are merged into the tile flag by sticky OR —
once set during a tile it can never be cleared by later blocks — and at the
end of the superblock-row loop a set flag escalates to the frame-fatal
`CORRUPT_FRAME` error "Failed to decode tile data"; conversely a row that
completes without error had no corruption at all (nothing partial is
salvaged). -/
theorem C7_corruption_sticky_and_escalates :
    (∀ (xd : Bool) (errs : List Bool),
        xd = true → errs.foldl decode_mbmi_block_corrupt xd = true) ∧
    (∀ (mb xd : Bool) (errs : List Bool),
        (xd = true ∨ true ∈ errs ∨ mb = true) →
        decode_tile_sb_row mb xd errs = .error failedTileErr) ∧
    (∀ (mb xd : Bool) (errs : List Bool) (res : Bool × Bool),
        decode_tile_sb_row mb xd errs = .ok res →
        xd = false ∧ mb = false ∧ true ∉ errs) := by
  refine ⟨?sticky, ?escalate, ?clean⟩
  case sticky =>
    intro xd errs hxd
    rw [foldl_merge_eq, hxd, Bool.true_or]
  case escalate =>
    intro mb xd errs hset
    simp only [decode_tile_sb_row, foldl_merge_eq]
    have : aom_merge_corrupted_flag mb (xd || errs.any id) = true := by
      unfold aom_merge_corrupted_flag
      rcases hset with h | h | h
      · simp [h]
      · have : errs.any id = true := by
          simp only [List.any_eq_true]
          exact ⟨true, h, rfl⟩
        simp [this]
      · simp [h]
    rw [this]
    simp [except_throw]
  case clean =>
    intro mb xd errs res h
    simp only [decode_tile_sb_row, foldl_merge_eq] at h
    by_cases hflag : aom_merge_corrupted_flag mb (xd || errs.any id) = true
    · rw [hflag] at h
      simp [except_throw] at h
    · have hf : aom_merge_corrupted_flag mb (xd || errs.any id) = false :=
        Bool.not_eq_true _ ▸ Bool.of_not_eq_true hflag
      unfold aom_merge_corrupted_flag at hf
      simp only [Bool.or_eq_false_iff] at hf
      refine ⟨hf.2.1, hf.1, ?_⟩
      intro hmem
      have : errs.any id = true := by
        simp only [List.any_eq_true]
        exact ⟨true, hmem, rfl⟩
      rw [this] at hf
      exact absurd hf.2.2 (by simp)

/-- Concrete instance of C7: a single mid-row reader error escalates to the
frame-fatal tile-decode error. -/
theorem C7_corruption_sticky_and_escalates_witness :
    decode_tile_sb_row false false [false, true, false] = .error failedTileErr :=
  C7_corruption_sticky_and_escalates.2.1 false false [false, true, false]
    (Or.inr (Or.inl (by decide)))

/-! ## C8: edge-constrained partition reading -/

/-- C8: for a partition node of size at least 8x8 inside the mode-info grid:
with both halves past the edge, `read_partition` returns `PARTITION_SPLIT`
consuming nothing; with exactly one half past the edge the ten-way choice
collapses to one binary symbol read against the CDF gathered from the node's
adaptive partition table, deciding `PARTITION_SPLIT` versus `PARTITION_HORZ`
(bottom half missing) respectively `PARTITION_VERT` (right half missing);
otherwise the full partition symbol is read from the adaptive table with the
block-size-dependent symbol count. -/
theorem C8_read_partition_edge_collapse (α β : Type) (cdf : α)
    (gv gh : α → β) (len : Nat)
    (rs : AomReader → α → Nat → Nat × AomReader)
    (rc : AomReader → β → Nat → Nat × AomReader) (r : AomReader) :
    (read_partition cdf gv gh len rs rc false false r =
      (.PARTITION_SPLIT, r)) ∧
    (read_partition cdf gv gh len rs rc true true r =
      (partitionOfNat (rs r cdf len).1, (rs r cdf len).2)) ∧
    (read_partition cdf gv gh len rs rc false true r =
      (if (rc r (gv cdf) 2).1 ≠ 0 then .PARTITION_SPLIT else .PARTITION_HORZ,
        (rc r (gv cdf) 2).2)) ∧
    (read_partition cdf gv gh len rs rc true false r =
      (if (rc r (gh cdf) 2).1 ≠ 0 then .PARTITION_SPLIT else .PARTITION_VERT,
        (rc r (gh cdf) 2).2)) := by
  refine ⟨?both, ?full, ?vertAlike, ?horzAlike⟩
  case both => simp [read_partition]
  case full =>
    rcases h : rs r cdf len with ⟨v, r2⟩
    simp [read_partition, h]
  case vertAlike =>
    rcases h : rc r (gv cdf) 2 with ⟨v, r2⟩
    simp [read_partition, h]
  case horzAlike =>
    rcases h : rc r (gh cdf) 2 with ⟨v, r2⟩
    simp [read_partition, h]

/-! ## C9: refresh_frame_flags = 0 commits the new buffer nowhere -/

theorem commit_refresh_go_zero_mem (new_fb_idx : Nat) (ref_frame_map : Fin 8 → Int) :
    ∀ (l : List (Fin 8)) (nxt : Fin 8 → Int) (cnt : Int → Nat) (i : Fin 8),
      i ∉ l →
      (commit_refresh_go new_fb_idx ref_frame_map l 0 nxt cnt).1 i = nxt i := by
  intro l
  induction l with
  | nil => intro nxt cnt i hi; simp [commit_refresh_go]
  | cons ri rest ih =>
    intro nxt cnt i hi
    have hne : i ≠ ri := fun h => hi (h ▸ List.mem_cons_self ri rest)
    have hrest : i ∉ rest := fun h => hi (List.mem_cons_of_mem ri h)
    simp only [commit_refresh_go, ne_eq, not_true_eq_false, if_false, ite_false]
    rw [ih _ _ i hrest]
    exact Function.update_noteq hne _ _

theorem commit_refresh_go_zero_nxt (new_fb_idx : Nat) (ref_frame_map : Fin 8 → Int) :
    ∀ (l : List (Fin 8)) (nxt : Fin 8 → Int) (cnt : Int → Nat) (i : Fin 8),
      i ∈ l →
      (commit_refresh_go new_fb_idx ref_frame_map l 0 nxt cnt).1 i =
        ref_frame_map i := by
  intro l
  induction l with
  | nil => intro nxt cnt i hi; simp at hi
  | cons ri rest ih =>
    intro nxt cnt i hi
    simp only [commit_refresh_go, ne_eq, not_true_eq_false, if_false, ite_false]
    by_cases hmem : i ∈ rest
    · exact ih _ _ i hmem
    · have hie : i = ri := by
        rcases List.mem_cons.mp hi with h | h
        · exact h
        · exact absurd h hmem
      rw [commit_refresh_go_zero_mem new_fb_idx ref_frame_map rest _ _ i hmem]
      rw [hie]
      exact Function.update_same ri _ _

theorem commit_refresh_go_zero_cnt (new_fb_idx : Nat) (ref_frame_map : Fin 8 → Int)
    (b : Int) (hb : ∀ i, ref_frame_map i ≠ b) :
    ∀ (l : List (Fin 8)) (nxt : Fin 8 → Int) (cnt : Int → Nat),
      (commit_refresh_go new_fb_idx ref_frame_map l 0 nxt cnt).2 b = cnt b := by
  intro l
  induction l with
  | nil => intro nxt cnt; simp [commit_refresh_go]
  | cons ri rest ih =>
    intro nxt cnt
    simp only [commit_refresh_go, ne_eq, not_true_eq_false, if_false, ite_false]
    rw [ih]
    by_cases hpos : (0 : Int) ≤ ref_frame_map ri
    · rw [if_pos hpos]
      unfold bump
      exact Function.update_noteq (Ne.symm (hb ri)) _ _
    · rw [if_neg hpos]

/-- C9: a non-intra frame signaling `refresh_frame_flags = 0` sets
`is_reference_frame` to false, generates a `next_ref_frame_map` in which
every slot equals the corresponding current `ref_frame_map` slot (the new
frame buffer is committed into no slot), and — the new buffer being distinct
from every current slot — leaves the new buffer's reference count untouched
by the refresh-mask commit. -/
theorem C9_refresh_zero_commits_nothing (new_fb_idx : Nat)
    (ref_frame_map nxt : Fin 8 → Int) (cnt : Int → Nat) :
    is_reference_frame_after_refresh 0 = false ∧
    (∀ i, (generate_next_ref_frame_map 0 new_fb_idx ref_frame_map nxt cnt).1 i =
      ref_frame_map i) ∧
    ((∀ i, ref_frame_map i ≠ (new_fb_idx : Int)) →
      (generate_next_ref_frame_map 0 new_fb_idx ref_frame_map nxt cnt).2
        (new_fb_idx : Int) = cnt (new_fb_idx : Int)) := by
  refine ⟨rfl, ?map, ?count⟩
  case map =>
    intro i
    exact commit_refresh_go_zero_nxt new_fb_idx ref_frame_map (List.finRange 8)
      nxt cnt i (List.mem_finRange i)
  case count =>
    intro hb
    exact commit_refresh_go_zero_cnt new_fb_idx ref_frame_map _ hb
      (List.finRange 8) nxt cnt

/-- Concrete instance of C9: with no slot holding the new buffer, a zero
refresh mask leaves slot contents and the new buffer's count unchanged. -/
theorem C9_refresh_zero_commits_nothing_witness :
    (generate_next_ref_frame_map 0 4 (fun _ => -1) (fun _ => 9) (fun _ => 0)).1 3
      = -1 ∧
    (generate_next_ref_frame_map 0 4 (fun _ => -1) (fun _ => 9) (fun _ => 0)).2 4
      = 0 := by
  have h := C9_refresh_zero_commits_nothing 4 (fun _ => -1) (fun _ => 9)
    (fun _ => 0)
  exact ⟨h.2.1 3, h.2.2 (fun i => by decide)⟩

/-! ## C10: sub-8x8 regions decode as a single leaf without a symbol -/

/-- C10: a region handed to `decode_partition` whose block size is below
`BLOCK_8X8` and whose top-left corner lies inside the mode-info grid reads no
partition symbol — the result is independent of the symbol readers and the
reader advances only by the restoration-coefficient reads — and fixes
`PARTITION_NONE`, dispatching exactly one leaf block at the region's origin. -/
theorem C10_sub8x8_fixed_partition_none (α β : Type) (cdf : α) (gv gh : α → β)
    (len : Nat) (rs : AomReader → α → Nat → Nat × AomReader)
    (rc : AomReader → β → Nat → Nat × AomReader) (msw : BLOCK_SIZE → Nat)
    (ssl : PARTITION_TYPE → BLOCK_SIZE → BLOCK_SIZE) (pbv : BLOCK_SIZE → Bool)
    (rrst : AomReader → AomReader) (mi_rows mi_cols mi_row mi_col : Nat)
    (bsize : BLOCK_SIZE) (r : AomReader)
    (hin_r : mi_row < mi_rows) (hin_c : mi_col < mi_cols)
    (hsub : bsize < BLOCK_8X8)
    (hval : pbv (ssl .PARTITION_NONE bsize) = true) :
    decode_partition_step cdf gv gh len rs rc msw ssl pbv rrst mi_rows mi_cols
      mi_row mi_col bsize r =
      .ok (some .PARTITION_NONE,
        [DecAction.block mi_row mi_col (ssl .PARTITION_NONE bsize)], rrst r) := by
  unfold decode_partition_step
  rw [if_neg (by omega)]
  simp only [if_pos hsub, hval, Bool.true_eq_false, if_false, ite_false,
    except_pure, decode_partition_dispatch]

/-- Concrete instance of C10 at a 4x4 block inside a 4x4-superblock grid. -/
theorem C10_sub8x8_fixed_partition_none_witness :
    decode_partition_step () (fun _ => ()) (fun _ => ()) 10
      (fun r _ _ => (3, r)) (fun r _ _ => (1, r)) (fun _ => 1)
      (fun _ b => b) (fun _ => true) (fun r => r) 4 4 0 0 BLOCK_4X4 ⟨[2]⟩ =
      .ok (some .PARTITION_NONE, [DecAction.block 0 0 BLOCK_4X4], ⟨[2]⟩) :=
  C10_sub8x8_fixed_partition_none Unit Unit () (fun _ => ()) (fun _ => ()) 10
    (fun r _ _ => (3, r)) (fun r _ _ => (1, r)) (fun _ => 1)
    (fun _ b => b) (fun _ => true) (fun r => r) 4 4 0 0 BLOCK_4X4 ⟨[2]⟩
    (by decide) (by decide) (by decide) (by decide)

end Aom
